import Mathlib

/-!
Verification of the monkey1shuffler resource pipeline.

This file gives a shallow embedding of the SCUMM V4 bytecode
disassembler/assembler (`monkey1shuffler/disasm.py`), the resource index
walk and save path (`monkey1shuffler/resources.py`), and the room/forest
shuffle machinery (`monkey1shuffler/mod_rooms.py`, `mod_misc.py`), and
proves properties of those definitions.

Modelling conventions:

* bytes are `List Nat` (each element a value 0..255 as read from disk);
* Python byte streams become parsers of type `List Nat → Option (α × Nat)`
  returning the parsed value and the number of bytes consumed; a Python
  exception (struct error on a short read, KeyError, AttributeError,
  AssertionError, ValueError) is modelled as `Option.none`;
* unbounded Python ints are `Int`; `struct.pack` style encoders are
  modelled with explicit `% 2^w` wrapping;
* the `while` loops of the Python parsers are modelled with a fuel
  parameter; every public entry point supplies `length + 1` fuel, which is
  enough because every loop iteration consumes at least one input byte.
-/

namespace M1S

/-- mrcrowbar helper: encode a Python int as two little-endian bytes,
unsigned interpretation (used for variable ids). -/
def to_uint16_le (n : Nat) : List Nat := [n % 256, n / 256 % 256]

/-- mrcrowbar helper: encode a Python int as two little-endian bytes,
two's-complement interpretation.  (`struct.pack` raises outside the 16-bit
range; all values reaching this in the claims are in range, and we model
the encoding with wrapping.) -/
def to_int16_le (n : Int) : List Nat :=
  [((n % 65536) % 256).toNat, ((n % 65536) / 256).toNat]

/-- mrcrowbar helper: encode a Python int as one byte. -/
def to_uint8 (n : Int) : List Nat := [(n % 256).toNat]

/-- mrcrowbar helper: decode two little-endian bytes as a signed 16-bit
value. -/
def from_int16_le (a b : Nat) : Int :=
  let v := a % 256 + 256 * (b % 256)
  if v < 32768 then (v : Int) else (v : Int) - 65536

/-- Decoded variable reference (`disasm.V4Var`): 16-bit id plus the
optional extra index word read when bit 0x2000 of the id is set. -/
structure V4Var where
  id : Nat
  extra : Option Nat
deriving DecidableEq, Repr

/-- `disasm.var_raw` / `V4Var.raw`: re-encode a variable reference. -/
def var_raw (v : V4Var) : List Nat :=
  to_uint16_le v.id ++ (match v.extra with
    | Option.none => []
    | some e => to_uint16_le e)

/-- Payload of a text token (`V4TextToken.data` in the source is
dynamically typed: bytes, int, V4Var or None). -/
inductive TTData where
  | null
  | bytes (bs : List Nat)
  | int (n : Int)
  | var (v : V4Var)
deriving DecidableEq, Repr

/-- Decoded text sub-token (`disasm.V4TextToken`). -/
structure V4TextToken where
  name : String
  data : TTData := TTData.null
deriving DecidableEq, Repr

/-- Value stored in a `V4Instr.args` entry.  The Python dict is
dynamically typed; the constructors below cover every shape produced by
the decoder: ints, variable references, booleans, strings, None, text
token streams, lists (vararg / classes / values / sources), sub-opcode
streams, and the nested args dict of `stringOps`. -/
inductive V4Arg where
  | int (n : Int)
  | var (v : V4Var)
  | bool (b : Bool)
  | str (s : String)
  | null
  | texts (ts : List V4TextToken)
  | list (xs : List V4Arg)
  | ops (os : List (String × List (String × V4Arg)))
  | dict (kvs : List (String × V4Arg))

/-- An instruction argument map: the Python `dict[str, Any]`, modelled as
an insertion-ordered association list. -/
abbrev Args := List (String × V4Arg)

/-- A decoded sub-opcode: name plus argument map (the `(op, args)` pairs
built by `parse_actorops`, `parse_sostring`, `parse_verbops`, ...). -/
abbrev SubOp := String × Args

/-- Decoded instruction (`disasm.V4Instr`).  The Python `repr` field is a
display-only callback and is not modelled. -/
structure V4Instr where
  opcode : Nat
  name : String := ""
  args : Args := []
  target : Option V4Var := Option.none
  raw : List Nat := []

/-- `disasm.nop`: the canonical blanking instruction, a zero-offset
relative jump. -/
def nop : V4Instr :=
  { opcode := 0x18, name := "jumpRelative", args := [("offset", V4Arg.int 0)] }

/-- A byte-stream parser: returns the parsed value and the number of
bytes consumed, or `none` for a Python exception. -/
def Parser (α : Type) : Type := List Nat → Option (α × Nat)

instance : Monad Parser where
  pure a := fun _ => some (a, 0)
  bind p f := fun bs =>
    match p bs with
    | Option.none => Option.none
    | some (a, n) =>
      match f a (bs.drop n) with
      | Option.none => Option.none
      | some (b, m) => some (b, n + m)

/-- A failing parse (a Python exception escaping the parser). -/
def pfail {α : Type} : Parser α := fun _ => Option.none

/-- `disasm.get_byte`: read one byte; raises (fails) at end of stream. -/
def get_byte : Parser Nat := fun bs =>
  match bs with
  | [] => Option.none
  | b :: _ => some (b, 1)

/-- `disasm.get_signed_word`: read a little-endian signed 16-bit word. -/
def get_signed_word : Parser Int := fun bs =>
  match bs with
  | a :: b :: _ => some (from_int16_le a b, 2)
  | _ => Option.none

/-- `disasm.get_unsigned_word`: read a little-endian unsigned 16-bit
word. -/
def get_unsigned_word : Parser Nat := fun bs =>
  match bs with
  | a :: b :: _ => some (a % 256 + 256 * (b % 256), 2)
  | _ => Option.none

/-- `disasm.get_var`: read a variable reference, including the extra
index word when bit 0x2000 is set. -/
def get_var : Parser V4Var := do
  let var_id ← get_unsigned_word
  if (var_id &&& 0x2000) != 0 then
    let extra ← get_unsigned_word
    pure ⟨var_id, some extra⟩
  else
    pure ⟨var_id, Option.none⟩

/-- `disasm.get_result_var` (which simply calls `get_var`). -/
def get_result_var : Parser V4Var := get_var

/-- The ubiquitous `get_var(stream) if aN else get_byte(stream)` pattern
of the decoder. -/
def get_var_or_byte (a : Bool) : Parser V4Arg :=
  if a then do
    let v ← get_var
    pure (V4Arg.var v)
  else do
    let b ← get_byte
    pure (V4Arg.int b)

/-- The `get_var(stream) if aN else get_signed_word(stream)` pattern of
the decoder. -/
def get_var_or_word (a : Bool) : Parser V4Arg :=
  if a then do
    let v ← get_var
    pure (V4Arg.var v)
  else do
    let w ← get_signed_word
    pure (V4Arg.int w)

/-- `disasm.get_vararg`: read a 0xFF-terminated list of operands, each a
variable reference (flag bit 0x80) or a signed word. -/
def get_vararg : Nat → Parser (List V4Arg)
  | 0 => pfail
  | fuel+1 => do
    let test ← get_byte
    if test == 0xFF then
      pure []
    else do
      let x ← if (test &&& 0x80) != 0 then do
          let v ← get_var
          pure (V4Arg.var v)
        else do
          let w ← get_signed_word
          pure (V4Arg.int w)
      let rest ← get_vararg fuel
      pure (x :: rest)

/-- Loop body of `disasm.get_text_tokens`, carrying the pending literal
`text_buffer`.  Reads until a 0x00 terminator; 0xFF or 0xFE introduces an
escape whose next byte selects a sub-token; literal bytes accumulate and
are flushed as a single `text` token at each escape and at the end. -/
def get_text_tokens_loop : Nat → List Nat → Parser (List V4TextToken)
  | 0, _ => pfail
  | fuel+1, buf => do
    let test ← get_byte
    if test == 0 then
      pure (if buf.isEmpty then [] else [⟨"text", TTData.bytes buf⟩])
    else if test == 0xFF || test == 0xFE then do
      let sub ← get_byte
      let flushed : List V4TextToken :=
        if buf.isEmpty then [] else [⟨"text", TTData.bytes buf⟩]
      let tok ← (match sub with
        | 1 => pure [(⟨"newline", TTData.null⟩ : V4TextToken)]
        | 2 => pure [(⟨"keepText", TTData.null⟩ : V4TextToken)]
        | 3 => pure [(⟨"wait", TTData.null⟩ : V4TextToken)]
        | 4 => do
          let v ← get_var
          pure [(⟨"getInt", TTData.var v⟩ : V4TextToken)]
        | 5 => do
          let v ← get_var
          pure [(⟨"getVerb", TTData.var v⟩ : V4TextToken)]
        | 6 => do
          let v ← get_var
          pure [(⟨"getName", TTData.var v⟩ : V4TextToken)]
        | 7 => do
          let v ← get_var
          pure [(⟨"getString", TTData.var v⟩ : V4TextToken)]
        | 9 => do
          let anim ← get_signed_word
          pure [(⟨"startAnim", TTData.int anim⟩ : V4TextToken)]
        | 12 => do
          let color ← get_signed_word
          pure [(⟨"setColor", TTData.int color⟩ : V4TextToken)]
        | 14 => do
          let font ← get_signed_word
          pure [(⟨"setFont", TTData.int font⟩ : V4TextToken)]
        | _ => pure [])
      let rest ← get_text_tokens_loop fuel []
      pure (flushed ++ tok ++ rest)
    else
      get_text_tokens_loop fuel (buf ++ [test])

/-- `disasm.get_text_tokens`, with fuel. -/
def get_text_tokens (fuel : Nat) : Parser (List V4TextToken) :=
  get_text_tokens_loop fuel []

/-- Run `get_text_tokens` at the start of a byte string, with enough fuel
for the whole input (the public entry point used by the claims). -/
def get_text_tokens_run (s : List Nat) : Option (List V4TextToken × Nat) :=
  get_text_tokens (s.length + 1) s

/-- Effectful map over a list in the Option monad (the ubiquitous
"encode each element, any failure aborts" loop shape of the encoders). -/
def mapOptionM {α β : Type} (f : α → Option β) : List α → Option (List β)
  | [] => some []
  | a :: as => do
    let b ← f a
    let bs ← mapOptionM f as
    pure (b :: bs)

/-- Python `list.index`: position of the first equal element, `none`
(ValueError) when absent. -/
def py_list_index {α : Type} [BEq α] : List α → α → Option Nat
  | [], _ => Option.none
  | x :: rest, a =>
    if x == a then some 0 else (py_list_index rest a).map (fun i => i + 1)

/-- Per-token encoder inside `disasm.text_tokens_to_bytes`.  Note the
source defects modelled here: `startAnim` asserts its payload is a
`V4Var` although the decoder produces an int (so re-encoding a decoded
`startAnim` raises); `setColor` and `setFont` call
`utils.from_int16_le` (a bytes-to-int decoder) on an int, which raises
unconditionally. -/
def text_token_to_bytes (t : V4TextToken) : Option (List Nat) :=
  match t.name with
  | "text" =>
    match t.data with
    | TTData.bytes bs => some bs
    | _ => Option.none
  | "newline" => some [0xFF, 0x01]
  | "keepText" => some [0xFF, 0x02]
  | "wait" => some [0xFF, 0x03]
  | "getInt" =>
    match t.data with
    | TTData.var v => some ([0xFF, 0x04] ++ var_raw v)
    | _ => Option.none
  | "getVerb" =>
    match t.data with
    | TTData.var v => some ([0xFF, 0x05] ++ var_raw v)
    | _ => Option.none
  | "getName" =>
    match t.data with
    | TTData.var v => some ([0xFF, 0x06] ++ var_raw v)
    | _ => Option.none
  | "getString" =>
    match t.data with
    | TTData.var v => some ([0xFF, 0x07] ++ var_raw v)
    | _ => Option.none
  | "startAnim" =>
    match t.data with
    | TTData.var v => some ([0xFF, 0x09] ++ var_raw v)
    | _ => Option.none
  | "setColor" => Option.none
  | "setFont" => Option.none
  | _ => some []

/-- `disasm.text_tokens_to_bytes`: serialise a token list and append the
0x00 terminator. -/
def text_tokens_to_bytes (tokens : List V4TextToken) : Option (List Nat) := do
  let parts ← mapOptionM text_token_to_bytes tokens
  pure (parts.flatten ++ [0x00])

/-- `disasm.V4_ACTOROPS_REMAP`. -/
def V4_ACTOROPS_REMAP : List Nat :=
  [1, 0, 0, 2, 3, 4, 5, 6, 7, 8, 9, 10, 11, 12, 13, 14, 15, 16, 17, 20]

/-- Python list indexing: negative indices count from the end, anything
out of range raises. -/
def py_index (l : List Nat) (i : Int) : Option Nat :=
  let j : Int := if 0 ≤ i then i else (l.length : Int) + i
  if 0 ≤ j then l.get? j.toNat else Option.none

/-- `disasm.parse_actorops`: 0xFF-terminated actorOps sub-opcode stream.
Each raw sub-opcode's low five bits are remapped through
`V4_ACTOROPS_REMAP` (with Python's negative-index wraparound when the low
bits are zero) before dispatch. -/
def parse_actorops (tfuel : Nat) : Nat → Parser (List SubOp)
  | 0 => pfail
  | fuel+1 => do
    let opcode0 ← get_byte
    if opcode0 == 0xFF then
      pure []
    else do
      let remapped ← fun _ => (py_index V4_ACTOROPS_REMAP ((opcode0 &&& 0x1F : Nat) - (1 : Int))).map (fun r => (r, 0))
      let opcode := (opcode0 &&& 0xE0) ||| remapped
      let a1 := (opcode &&& 0x80) != 0
      let a2 := (opcode &&& 0x40) != 0
      let a3 := (opcode &&& 0x20) != 0
      let op ← (match opcode &&& 0x1F with
        | 0x00 => do
          let d ← get_var_or_byte a1
          pure ("SO_DUMMY", [("data", d)])
        | 0x01 => do
          let c ← get_var_or_byte a1
          pure ("SO_COSTUME", [("costume", c)])
        | 0x02 => do
          let sx ← get_var_or_byte a1
          let sy ← get_var_or_byte a2
          pure ("SO_STEP_DIST", [("speed_x", sx), ("speed_y", sy)])
        | 0x03 => do
          let s ← get_var_or_byte a1
          pure ("SO_SOUND", [("sound", s)])
        | 0x04 => do
          let f ← get_var_or_byte a1
          pure ("SO_WALK_ANIMATION", [("walk_frame", f)])
        | 0x05 => do
          let f1 ← get_var_or_byte a1
          let f2 ← get_var_or_byte a2
          pure ("SO_TALK_ANIMATION",
            [("talk_start_frame", f1), ("talk_stop_frame", f2)])
        | 0x06 => do
          let f ← get_var_or_byte a1
          pure ("SO_STAND_ANIMATION", [("stand_frame", f)])
        | 0x07 => do
          let u1 ← get_var_or_byte a1
          let u2 ← get_var_or_byte a2
          let u3 ← get_var_or_byte a3
          pure ("SO_ANIMATION", [("unk1", u1), ("unk2", u2), ("unk3", u3)])
        | 0x08 => pure ("SO_DEFAULT", ([] : Args))
        | 0x09 => do
          let e ← get_var_or_word a1
          pure ("SO_ELEVATION", [("elevation", e)])
        | 0x0A => pure ("SO_ANIMATION_DEFAULT", ([] : Args))
        | 0x0B => do
          let idx ← get_var_or_byte a1
          let val ← get_var_or_byte a2
          pure ("SO_PALETTE", [("idx", idx), ("val", val)])
        | 0x0C => do
          let c ← get_var_or_byte a1
          pure ("SO_TALK_COLOR", [("color", c)])
        | 0x0D => do
          let name ← get_text_tokens tfuel
          pure ("SO_ACTOR_NAME", [("name", V4Arg.texts name)])
        | 0x0E => do
          let f ← get_var_or_byte a1
          pure ("SO_INIT_ANIMATION", [("init_frame", f)])
        | 0x10 => do
          let w ← get_var_or_byte a1
          pure ("SO_ACTOR_WIDTH", [("width", w)])
        | 0x11 => do
          let s ← get_var_or_byte a1
          pure ("SO_ACTOR_SCALE", [("scale_x", s), ("scale_y", s)])
        | 0x12 => pure ("SO_NEVER_ZCLIP", ([] : Args))
        | 0x13 => do
          let f ← get_var_or_byte a1
          pure ("SO_ALWAYS_ZCLIP", [("force", f)])
        | 0x14 => pure ("SO_IGNORE_BOXES", ([] : Args))
        | 0x15 => pure ("SO_FOLLOW_BOXES", ([] : Args))
        | 0x16 => do
          let s ← get_var_or_byte a1
          pure ("SO_ANIMATION_SPEED", [("anim_speed", s)])
        | 0x17 => do
          let s ← get_var_or_byte a1
          pure ("SO_SHADOW", [("shadow_mode", s)])
        | _ => pure ("SO_UNK", ([] : Args)))
      let rest ← parse_actorops tfuel fuel
      pure (op :: rest)

/-- `disasm.parse_stringops`: single stringOps sub-opcode, returning the
function name, its argument map, and the optional result variable. -/
def parse_stringops (tfuel : Nat) : Parser (String × Args × Option V4Var) := do
  let opcode ← get_byte
  let a1 := (opcode &&& 0x80) != 0
  let a2 := (opcode &&& 0x40) != 0
  let a3 := (opcode &&& 0x20) != 0
  match opcode &&& 0x1F with
  | 1 => do
    let index ← get_var_or_byte a1
    let string ← get_text_tokens tfuel
    pure ("loadstring", [("index", index), ("string", V4Arg.texts string)],
      Option.none)
  | 2 => do
    let a ← get_var_or_byte a1
    let b ← get_var_or_byte a2
    pure ("copystring", [("a", a), ("b", b)], Option.none)
  | 3 => do
    let a ← get_var_or_byte a1
    let b ← get_var_or_byte a2
    let c ← get_var_or_byte a3
    pure ("setstringchar", [("a", a), ("b", b), ("c", c)], Option.none)
  | 4 => do
    let result ← get_result_var
    let a ← get_var_or_byte a1
    let b ← get_var_or_byte a2
    pure ("getstringchar", [("a", a), ("b", b)], some result)
  | 5 => do
    let a ← get_var_or_byte a1
    let b ← get_var_or_byte a2
    pure ("createemptystring", [("a", a), ("b", b)], Option.none)
  | _ => pure ("unk", [], Option.none)

/-- `disasm.parse_cursorcommand`. -/
def parse_cursorcommand (vfuel : Nat) : Parser (String × Args) := do
  let opcode ← get_byte
  let a1 := (opcode &&& 0x80) != 0
  let a2 := (opcode &&& 0x40) != 0
  let a3 := (opcode &&& 0x20) != 0
  match opcode &&& 0x1F with
  | 1 => pure ("SO_CURSOR_ON", [])
  | 2 => pure ("SO_CURSOR_OFF", [])
  | 3 => pure ("SO_USERPUT_ON", [])
  | 4 => pure ("SO_USERPUT_OFF", [])
  | 5 => pure ("SO_CURSOR_SOFT_ON", [])
  | 6 => pure ("SO_CURSOR_SOFT_OFF", [])
  | 7 => pure ("SO_USERPUT_SOFT_ON", [])
  | 8 => pure ("SO_USERPUT_SOFT_OFF", [])
  | 10 => do
    let index ← get_var_or_byte a1
    let char ← get_var_or_byte a2
    pure ("SO_CURSOR_IMAGE", [("index", index), ("char", char)])
  | 11 => do
    let index ← get_var_or_byte a1
    let x ← get_var_or_byte a2
    let y ← get_var_or_byte a3
    pure ("SO_CURSOR_HOTSPOT", [("index", index), ("x", x), ("y", y)])
  | 12 => do
    let index ← get_var_or_byte a1
    pure ("SO_CURSOR_SET", [("index", index)])
  | 13 => do
    let charset ← get_var_or_byte a1
    pure ("SO_CHARSET_SET", [("charset", charset)])
  | 14 => do
    let table ← get_vararg vfuel
    pure ("SO_CHARSET_UNK", [("table", V4Arg.list table)])
  | _ => pure ("SO_UNK", [])

/-- `disasm.parse_matrixops`. -/
def parse_matrixops : Parser (String × Args) := do
  let opcode ← get_byte
  let a1 := (opcode &&& 0x80) != 0
  let a2 := (opcode &&& 0x40) != 0
  match opcode &&& 0x1F with
  | 1 => do
    let a ← get_var_or_byte a1
    let b ← get_var_or_byte a2
    pure ("setBoxFlags", [("box", a), ("val", b)])
  | 2 => do
    let a ← get_var_or_byte a1
    let b ← get_var_or_byte a2
    pure ("setBoxScale", [("box", a), ("val", b)])
  | 3 => do
    let a ← get_var_or_byte a1
    let b ← get_var_or_byte a2
    pure ("setBoxScaleAlt", [("box", a), ("val", b)])
  | 4 => pure ("createBoxMatrix", [])
  | _ => pure ("", [])

/-- `disasm.parse_roomops`.  Note a source quirk kept here: all three
argument-source flags are computed from bit 0x80 of the sub-opcode. -/
def parse_roomops : Parser (String × Args) := do
  let opcode ← get_byte
  let a1 := (opcode &&& 0x80) != 0
  let a2 := (opcode &&& 0x80) != 0
  let a3 := (opcode &&& 0x80) != 0
  match opcode &&& 0x1F with
  | 1 => do
    let a ← get_var_or_word a1
    let b ← get_var_or_word a2
    pure ("SO_ROOM_SCROLL", [("camera_min_x", a), ("camera_max_x", b)])
  | 2 => do
    let val ← get_var_or_word a1
    let idx ← get_var_or_word a2
    pure ("SO_ROOM_COLOR", [("val", val), ("idx", idx)])
  | 3 => do
    let b ← get_var_or_word a1
    let h ← get_var_or_word a2
    pure ("SO_ROOM_SCREEN", [("b", b), ("h", h)])
  | 4 => do
    let imin ← get_var_or_word a1
    let imax ← get_var_or_word a2
    pure ("SO_ROOM_PALETTE", [("index_min", imin), ("index_max", imax)])
  | 5 => pure ("SO_ROOM_SHAKE_ON", [])
  | 6 => pure ("SO_ROOM_SHAKE_OFF", [])
  | 7 => do
    let a ← get_var_or_byte a1
    let b ← get_var_or_byte a2
    let opcode2 ← get_byte
    let a1b := (opcode2 &&& 0x80) != 0
    let a2b := (opcode2 &&& 0x40) != 0
    let c ← get_var_or_byte a1b
    let d ← get_var_or_byte a2b
    let opcode3 ← get_byte
    let a2c := (opcode3 &&& 0x40) != 0
    let e ← get_var_or_byte a2c
    pure ("SO_ROOM_SCALE",
      [("a", a), ("b", b), ("c", c), ("d", d), ("e", e)])
  | 8 => do
    let a ← get_var_or_byte a1
    let b ← get_var_or_byte a2
    let c ← get_var_or_byte a3
    pure ("SO_ROOM_INTENSITY", [("a", a), ("b", b), ("c", c)])
  | 9 => do
    let flag ← get_var_or_byte a1
    let slot ← get_var_or_byte a2
    pure ("SO_ROOM_SAVEGAME", [("flag", flag), ("slot", slot)])
  | 10 => do
    let a ← get_var_or_word a1
    pure ("SO_ROOM_FADE", [("a", a)])
  | 11 => do
    let a ← get_var_or_byte a1
    let b ← get_var_or_byte a2
    let c ← get_var_or_byte a3
    let opcode2 ← get_byte
    let a1b := (opcode2 &&& 0x80) != 0
    let a2b := (opcode2 &&& 0x40) != 0
    let d ← get_var_or_byte a1b
    let e ← get_var_or_byte a2b
    pure ("SO_RGB_ROOM_INTENSITY",
      [("a", a), ("b", b), ("c", c), ("d", d), ("e", e)])
  | 12 => do
    let a ← get_var_or_byte a1
    let b ← get_var_or_byte a2
    let c ← get_var_or_byte a3
    let opcode2 ← get_byte
    let a1b := (opcode2 &&& 0x80) != 0
    let a2b := (opcode2 &&& 0x40) != 0
    let d ← get_var_or_byte a1b
    let e ← get_var_or_byte a2b
    pure ("SO_ROOM_SHADOW",
      [("a", a), ("b", b), ("c", c), ("d", d), ("e", e)])
  | 13 => pure ("SO_SAVE_STRING", [])
  | 14 => pure ("SO_LOAD_STRING", [])
  | 15 => do
    let a ← get_var_or_byte a1
    let opcode2 ← get_byte
    let a1b := (opcode2 &&& 0x80) != 0
    let a2b := (opcode2 &&& 0x40) != 0
    let b ← get_var_or_byte a1b
    let c ← get_var_or_byte a2b
    let opcode3 ← get_byte
    let a1c := (opcode3 &&& 0x80) != 0
    let d ← get_var_or_byte a1c
    pure ("SO_ROOM_TRANSFORM", [("a", a), ("b", b), ("c", c), ("d", d)])
  | 16 => do
    let a ← get_var_or_byte a1
    let b ← get_var_or_byte a1
    pure ("SO_CYCLE_SPEED", [("a", a), ("b", b)])
  | _ => pure ("SO_UNK", [])

/-- `disasm.parse_systemops`: returns the sub-op name, or None for an
unknown code. -/
def parse_systemops : Parser V4Arg := do
  let op ← get_byte
  match op with
  | 1 => pure (V4Arg.str "SO_RESTART")
  | 2 => pure (V4Arg.str "SO_PAUSE")
  | 3 => pure (V4Arg.str "SO_QUIT")
  | _ => pure V4Arg.null

/-- `disasm.parse_saverestoreverbs`. -/
def parse_saverestoreverbs : Parser (V4Arg × Args) := do
  let opcode ← get_byte
  let vstart ← get_var_or_byte ((opcode &&& 0x80) != 0)
  let vend ← get_var_or_byte ((opcode &&& 0x40) != 0)
  let vsave ← get_var_or_byte ((opcode &&& 0x20) != 0)
  let args : Args :=
    [("verb_id_start", vstart), ("verb_id_end", vend), ("save_id", vsave)]
  match opcode &&& 0x1F with
  | 0x01 => pure (V4Arg.str "SO_SAVE_VERBS", args)
  | 0x02 => pure (V4Arg.str "SO_RESTORE_VERBS", args)
  | 0x03 => pure (V4Arg.str "SO_DELETE_VERBS", args)
  | _ => pure (V4Arg.null, args)

/-- `disasm.parse_sostring`: 0xFF-terminated print sub-opcode stream; the
dispatch uses only the low four bits, and a `SO_TEXTSTRING` (0x0F)
sub-opcode returns immediately after its token stream without consuming a
terminator. -/
def parse_sostring (tfuel : Nat) : Nat → Parser (List SubOp)
  | 0 => pfail
  | fuel+1 => do
    let opcode ← get_byte
    if opcode == 0xFF then
      pure []
    else do
      let a1 := (opcode &&& 0x80) != 0
      let a2 := (opcode &&& 0x40) != 0
      match opcode &&& 0x0F with
      | 0x00 => do
        let xpos ← get_var_or_word a1
        let ypos ← get_var_or_word a2
        let rest ← parse_sostring tfuel fuel
        pure (("SO_AT", [("xpos", xpos), ("ypos", ypos)]) :: rest)
      | 0x01 => do
        let color ← get_var_or_byte a1
        let rest ← parse_sostring tfuel fuel
        pure (("SO_COLOR", [("color", color)]) :: rest)
      | 0x02 => do
        let right ← get_var_or_word a1
        let rest ← parse_sostring tfuel fuel
        pure (("SO_CLIPPED", [("right", right)]) :: rest)
      | 0x03 => do
        let width ← get_var_or_word a1
        let height ← get_var_or_word a2
        let rest ← parse_sostring tfuel fuel
        pure (("SO_ERASE", [("width", width), ("height", height)]) :: rest)
      | 0x04 => do
        let rest ← parse_sostring tfuel fuel
        pure (("SO_CENTER", ([] : Args)) :: rest)
      | 0x06 => do
        let rest ← parse_sostring tfuel fuel
        pure (("SO_LEFT", ([] : Args)) :: rest)
      | 0x07 => do
        let rest ← parse_sostring tfuel fuel
        pure (("SO_OVERHEAD", ([] : Args)) :: rest)
      | 0x08 => do
        let off ← get_var_or_word a1
        let delay ← get_var_or_word a2
        let rest ← parse_sostring tfuel fuel
        pure (("SO_SAY_VOICE", [("offset", off), ("delay", delay)]) :: rest)
      | 0x0F => do
        let s ← get_text_tokens tfuel
        pure [("SO_TEXTSTRING", [("str", V4Arg.texts s)])]
      | _ => do
        let rest ← parse_sostring tfuel fuel
        pure (("SO_UNK", ([] : Args)) :: rest)

/-- `disasm.parse_verbops`: 0xFF-terminated verbOps sub-opcode stream.
Source quirks kept: the `SO_VERB_BACKCOLOR` case (23) reads its colour
operand but never appends the sub-op, and unknown codes are silently
dropped. -/
def parse_verbops (tfuel : Nat) : Nat → Parser (List SubOp)
  | 0 => pfail
  | fuel+1 => do
    let opcode ← get_byte
    if opcode == 0xFF then
      pure []
    else do
      let a1 := (opcode &&& 0x80) != 0
      let a2 := (opcode &&& 0x40) != 0
      let this ← (match opcode &&& 0x1F with
        | 1 => do
          let a ← get_var_or_word a1
          pure [("SO_VERB_IMAGE", [("obj", a)])]
        | 2 => do
          let text ← get_text_tokens tfuel
          pure [("SO_VERB_NAME", [("text", V4Arg.texts text)])]
        | 3 => do
          let color ← get_var_or_byte a1
          pure [("SO_VERB_COLOR", [("color", color)])]
        | 4 => do
          let color ← get_var_or_byte a1
          pure [("SO_VERB_HICOLOR", [("color", color)])]
        | 5 => do
          let x ← get_var_or_word a1
          let y ← get_var_or_word a2
          pure [("SO_VERB_AT", [("x", x), ("y", y)])]
        | 6 => pure [("SO_VERB_ON", ([] : Args))]
        | 7 => pure [("SO_VERB_OFF", ([] : Args))]
        | 8 => pure [("SO_VERB_DELETE", ([] : Args))]
        | 9 => pure [("SO_VERB_NEW", ([] : Args))]
        | 16 => do
          let color ← get_var_or_byte a1
          pure [("SO_VERB_DIMCOLOR", [("color", color)])]
        | 17 => pure [("SO_VERB_DIM", ([] : Args))]
        | 18 => do
          let key ← get_var_or_byte a1
          pure [("SO_VERB_KEY", [("key", key)])]
        | 19 => pure [("SO_VERB_CENTER", ([] : Args))]
        | 20 => do
          let idx ← get_var_or_word a1
          pure [("SO_VERB_NAME_STR", [("idx", idx)])]
        | 22 => do
          let obj ← get_var_or_word a1
          let room ← get_var_or_byte a2
          pure [("SO_VERB_ASSIGN_OBJECT", [("obj", obj), ("room", room)])]
        | 23 => do
          let _color ← get_var_or_byte a1
          pure ([] : List SubOp)
        | _ => pure ([] : List SubOp))
      let rest ← parse_verbops tfuel fuel
      pure (this ++ rest)

/-- `disasm.parse_wait`. -/
def parse_wait : Parser Args := do
  let opcode ← get_byte
  let a1 := (opcode &&& 0x80) != 0
  match opcode &&& 0x1F with
  | 1 => do
    let actor ← get_var_or_byte a1
    pure [("op", V4Arg.str "SO_WAIT_FOR_ACTOR"), ("actor", actor)]
  | 2 => pure [("op", V4Arg.str "SO_WAIT_FOR_MESSAGE")]
  | 3 => pure [("op", V4Arg.str "SO_WAIT_FOR_CAMERA")]
  | 4 => pure [("op", V4Arg.str "SO_WAIT_FOR_SENTENCE")]
  | _ => pure [("op", V4Arg.str "SO_UNK")]

/-- Class list loop of the `ifClassOfIs` case of `disasm.get_v4_instr`:
read operands until a 0xFF sentinel, each flagged by bit 0x80 of its
marker byte. -/
def ifclass_loop : Nat → Parser (List V4Arg)
  | 0 => pfail
  | fuel+1 => do
    let test ← get_byte
    if test == 0xFF then
      pure []
    else do
      let c ← get_var_or_word ((test &&& 0x80) != 0)
      let rest ← ifclass_loop fuel
      pure (c :: rest)

/-- Source list loop of the `pseudoRoom` case of `disasm.get_v4_instr`:
read bytes until a 0x00 sentinel. -/
def pseudoroom_loop : Nat → Parser (List Nat)
  | 0 => pfail
  | fuel+1 => do
    let b ← get_byte
    if b == 0 then
      pure []
    else do
      let rest ← pseudoroom_loop fuel
      pure (b :: rest)

/-- Value loop of the `setVarRange` case of `disasm.get_v4_instr`: read
`count` values, each a signed word (flag set) or a byte. -/
def read_varrange (a1 : Bool) : Nat → Parser (List V4Arg)
  | 0 => pure []
  | count+1 => do
    let v ← if a1 then do
        let w ← get_signed_word
        pure (V4Arg.int w)
      else do
        let b ← get_byte
        pure (V4Arg.int b)
    let rest ← read_varrange a1 count
    pure (v :: rest)

set_option maxHeartbeats 3200000 in
mutual

/-- Body of `disasm.get_v4_instr`: the opcode dispatch, ported case by
case from the source (itself ported from scummvm script_v5.cpp).  The
`raw` field is filled in by the `get_v4_instr` wrapper below; the Python
`repr` callbacks are display-only and not modelled.  The commented-out
`getObjectState` and `pickupObject` variants and the unreachable second
`drawObject` case of the source are omitted.  Source quirks kept: the
`isSoundRunning` and `systemOps` cases assign a local `args` variable
instead of `result.args`, so their decoded arguments are dropped. -/
def parse_instr_body : Nat → Parser V4Instr
  | 0 => pfail
  | fuel+1 => do
    let opcode ← get_byte
    let a1 := (opcode &&& 0x80) != 0
    let a2 := (opcode &&& 0x40) != 0
    let a3 := (opcode &&& 0x20) != 0
    match opcode with
    | 0x00 | 0xA0 =>
      pure { opcode, name := "stopObjectCode" }
    | 0x01 | 0x21 | 0x41 | 0x61 | 0x81 | 0xA1 | 0xC1 | 0xE1 => do
      let act ← get_var_or_byte a1
      let x ← get_var_or_word a2
      let y ← get_var_or_word a3
      pure { opcode, name := "putActor",
             args := [("act", act), ("x", x), ("y", y)] }
    | 0x02 | 0x82 => do
      let cmd ← get_var_or_byte a1
      pure { opcode, name := "startMusic", args := [("cmd", cmd)] }
    | 0x03 | 0x83 => do
      let t ← get_result_var
      let act ← get_var_or_byte a1
      pure { opcode, name := "getActorRoom", target := some t,
             args := [("act", act)] }
    | 0x04 | 0x84 => do
      let a ← get_var
      let b ← get_var_or_word a1
      let off ← get_signed_word
      pure { opcode, name := "isGreaterEqual",
             args := [("a", V4Arg.var a), ("b", b), ("offset", V4Arg.int off)] }
    | 0x05 | 0x25 | 0x45 | 0x65 | 0x85 | 0xA5 | 0xC5 | 0xE5 => do
      let obj ← get_var_or_word a1
      let x ← get_var_or_word a2
      let y ← get_var_or_word a3
      pure { opcode, name := "drawObject",
             args := [("obj", obj), ("x", x), ("y", y)] }
    | 0x06 | 0x86 => do
      let t ← get_result_var
      let act ← get_var_or_byte a1
      pure { opcode, name := "getActorElevation", target := some t,
             args := [("act", act)] }
    | 0x07 | 0x47 | 0x87 | 0xC7 => do
      let obj ← get_var_or_word a1
      let state ← get_var_or_byte a2
      pure { opcode, name := "setState",
             args := [("obj", obj), ("state", state)] }
    | 0x08 | 0x88 => do
      let a ← get_var
      let b ← get_var_or_word a1
      let off ← get_signed_word
      pure { opcode, name := "isNotEqual",
             args := [("a", V4Arg.var a), ("b", b), ("offset", V4Arg.int off)] }
    | 0x09 | 0x49 | 0x89 | 0xC9 => do
      let act ← get_var_or_byte a1
      let obj ← get_var_or_word a2
      pure { opcode, name := "faceActor",
             args := [("act", act), ("obj", obj)] }
    | 0x0A | 0x2A | 0x4A | 0x6A | 0x8A | 0xAA | 0xCA | 0xEA => do
      let script ← get_var_or_byte a1
      let var ← get_vararg fuel
      pure { opcode, name := "startScript",
             args := [("script", script), ("var", V4Arg.list var),
                      ("recursive", V4Arg.bool a2),
                      ("freeze_resistant", V4Arg.bool a3)] }
    | 0x0B | 0x4B | 0x8B | 0xCB => do
      let obj ← get_var_or_word a1
      let entry ← get_var_or_word a2
      pure { opcode, name := "getVerbEntrypoint",
             args := [("obj", obj), ("entry", entry)] }
    | 0x0C | 0x8C => do
      let opr ← get_byte
      let a1r := (opr &&& 0x80) != 0
      let a2r := (opr &&& 0x40) != 0
      let op := opr &&& 0x3F
      let resid ← if op != 17 then get_var_or_byte a1r else pure (V4Arg.int 0)
      let resid2 ← if op == 20 then get_var_or_word a2r
        else if op == 36 then get_var_or_word a2r
        else pure (V4Arg.int 0)
      let resid3 ← if op == 36 then do
          let b ← get_byte
          pure (V4Arg.int b)
        else if op == 37 then get_var_or_byte a2r
        else pure (V4Arg.int 0)
      pure { opcode, name := "resourceRoutines",
             args := [("op", V4Arg.int op), ("resid", resid),
                      ("resid2", resid2), ("resid3", resid3)] }
    | 0x0D | 0x4D | 0x8D | 0xCD => do
      let nr ← get_var_or_byte a1
      let nr2 ← get_var_or_byte a2
      let dist ← get_byte
      pure { opcode, name := "walkActorToActor",
             args := [("nr", nr), ("nr2", nr2), ("dist", V4Arg.int dist)] }
    | 0x0E | 0x4E | 0x8E | 0xCE => do
      let act ← get_var_or_byte a1
      let obj ← get_var_or_word a2
      pure { opcode, name := "putActorAtObject",
             args := [("act", act), ("obj", obj)] }
    | 0x0F | 0x4F | 0x8F | 0xCF => do
      let obj ← get_var_or_word a1
      let val ← get_var_or_byte a2
      let off ← get_signed_word
      pure { opcode, name := "ifState",
             args := [("obj", obj), ("val", val), ("offset", V4Arg.int off)] }
    | 0x10 | 0x90 => do
      let t ← get_result_var
      let obj ← get_var_or_word a1
      pure { opcode, name := "getObjectOwner", target := some t,
             args := [("obj", obj)] }
    | 0x11 | 0x51 | 0x91 | 0xD1 => do
      let act ← get_var_or_byte a1
      let anim ← get_var_or_byte a2
      pure { opcode, name := "animateActor",
             args := [("act", act), ("anim", anim)] }
    | 0x12 | 0x92 => do
      let x ← get_var_or_word a1
      pure { opcode, name := "panCameraTo", args := [("x", x)] }
    | 0x13 | 0x53 | 0x93 | 0xD3 => do
      let act ← get_var_or_byte a1
      let ops ← parse_actorops fuel fuel
      pure { opcode, name := "actorOps",
             args := [("act", act),
                      ("ops", V4Arg.ops ops)] }
    | 0x14 | 0x94 => do
      let act ← get_var_or_byte a1
      let ops ← parse_sostring fuel fuel
      pure { opcode, name := "print",
             args := [("act", act), ("ops", V4Arg.ops ops)] }
    | 0x15 | 0x55 | 0x95 | 0xD5 => do
      let t ← get_result_var
      let x ← get_var_or_word a1
      let y ← get_var_or_word a2
      pure { opcode, name := "actorFromPos", target := some t,
             args := [("x", x), ("y", y)] }
    | 0x16 | 0x96 => do
      let t ← get_result_var
      let mx ← get_var_or_byte a1
      pure { opcode, name := "getRandomNr", target := some t,
             args := [("max", mx)] }
    | 0x17 | 0x97 => do
      let t ← get_result_var
      let a ← get_var_or_word a1
      pure { opcode, name := "and", target := some t, args := [("a", a)] }
    | 0x18 => do
      let off ← get_signed_word
      pure { opcode, name := "jumpRelative",
             args := [("offset", V4Arg.int off)] }
    | 0x19 | 0x39 | 0x59 | 0x79 | 0x99 | 0xB9 | 0xD9 | 0xF9 => do
      let verb ← get_var_or_byte a1
      let isFE := match verb with
        | V4Arg.int n => n == 254
        | _ => false
      if isFE then
        pure { opcode, name := "doSentence",
               args := [("verb", verb), ("obj_a", V4Arg.null),
                        ("obj_b", V4Arg.null)] }
      else do
        let obj_a ← get_var_or_word a2
        let obj_b ← get_var_or_word a3
        pure { opcode, name := "doSentence",
               args := [("verb", verb), ("obj_a", obj_a), ("obj_b", obj_b)] }
    | 0x1A | 0x9A => do
      let t ← get_result_var
      let value ← get_var_or_word a1
      pure { opcode, name := "move", target := some t,
             args := [("value", value)] }
    | 0x1B | 0x9B => do
      let t ← get_result_var
      let a ← get_var_or_word a1
      pure { opcode, name := "multiply", target := some t,
             args := [("a", a)] }
    | 0x1C | 0x9C => do
      let sound ← get_var_or_byte a1
      pure { opcode, name := "startSound", args := [("sound", sound)] }
    | 0x1D | 0x9D => do
      let obj ← get_var_or_word a1
      let classes ← ifclass_loop fuel
      let off ← get_signed_word
      pure { opcode, name := "ifClassOfIs",
             args := [("obj", obj), ("classes", V4Arg.list classes),
                      ("offset", V4Arg.int off)] }
    | 0x1E | 0x3E | 0x5E | 0x7E | 0x9E | 0xBE | 0xDE | 0xFE => do
      let act ← get_var_or_byte a1
      let x ← get_var_or_word a2
      let y ← get_var_or_word a3
      pure { opcode, name := "walkActorTo",
             args := [("act", act), ("x", x), ("y", y)] }
    | 0x1F | 0x5F | 0x9F | 0xDF => do
      let act ← get_var_or_byte a1
      let box ← get_var_or_byte a2
      let off ← get_signed_word
      pure { opcode, name := "isActorInBox",
             args := [("act", act), ("box", box), ("offset", V4Arg.int off)] }
    | 0x20 =>
      pure { opcode, name := "stopMusic" }
    | 0x22 | 0xA2 => do
      let t ← get_result_var
      let op ← get_var_or_byte a1
      pure { opcode, name := "saveLoadGame", target := some t,
             args := [("op", op)] }
    | 0x23 | 0xA3 => do
      let t ← get_result_var
      let act ← get_var_or_word a1
      pure { opcode, name := "getActorY", target := some t,
             args := [("act", act)] }
    | 0x24 | 0x64 | 0xA4 | 0xE4 => do
      let obj ← get_var_or_word a1
      let room ← get_var_or_byte a2
      let x ← get_signed_word
      let y ← get_signed_word
      pure { opcode, name := "loadRoomWithEgo",
             args := [("obj", obj), ("room", room),
                      ("x", V4Arg.int x), ("y", V4Arg.int y)] }
    | 0x26 | 0xA6 => do
      let t ← get_result_var
      let count ← get_byte
      let values ← read_varrange a1 count
      pure { opcode, name := "setVarRange", target := some t,
             args := [("values", V4Arg.list values)] }
    | 0x27 => do
      let fat ← parse_stringops fuel
      pure { opcode, name := "stringOps", target := fat.2.2,
             args := [("op", V4Arg.str fat.1), ("args", V4Arg.dict fat.2.1)] }
    | 0x28 => do
      let a ← get_var
      let off ← get_signed_word
      pure { opcode, name := "equalZero",
             args := [("a", V4Arg.var a), ("offset", V4Arg.int off)] }
    | 0x29 | 0x69 | 0xA9 | 0xE9 => do
      let obj ← get_var_or_word a1
      let owner ← get_var_or_byte a2
      pure { opcode, name := "setOwner",
             args := [("obj", obj), ("owner", owner)] }
    | 0x2B => do
      let v ← get_var
      pure { opcode, name := "delayVariable",
             args := [("var", V4Arg.var v)] }
    | 0x2C => do
      let oa ← parse_cursorcommand fuel
      pure { opcode, name := "cursorCommand",
             args := [("op", V4Arg.str oa.1), ("args", V4Arg.dict oa.2)] }
    | 0x2D | 0x6D | 0xAD | 0xED => do
      let act ← get_var_or_byte a1
      let room ← get_var_or_byte a2
      pure { opcode, name := "putActorInRoom",
             args := [("act", act), ("room", room)] }
    | 0x2E => do
      let b0 ← get_byte
      let b1 ← get_byte
      let b2 ← get_byte
      pure { opcode, name := "delay",
             args := [("delay", V4Arg.int (b0 + b1 * 256 + b2 * 65536))] }
    | 0x2F | 0x6F | 0xAF | 0xEF => do
      let obj ← get_var_or_word a1
      let val ← get_var_or_byte a2
      let off ← get_signed_word
      pure { opcode, name := "ifNotState",
             args := [("obj", obj), ("val", val), ("offset", V4Arg.int off)] }
    | 0x30 | 0xB0 => do
      let oa ← parse_matrixops
      pure { opcode, name := "matrixOps",
             args := [("op", V4Arg.str oa.1), ("args", V4Arg.dict oa.2)] }
    | 0x31 | 0xB1 => do
      let t ← get_result_var
      let owner ← get_var_or_byte a1
      pure { opcode, name := "setInventoryCount", target := some t,
             args := [("owner", owner)] }
    | 0x32 | 0xB2 => do
      let x_pos ← get_var_or_word a1
      pure { opcode, name := "setCameraAt", args := [("x_pos", x_pos)] }
    | 0x33 | 0x73 | 0xB3 | 0xF3 => do
      let oa ← parse_roomops
      pure { opcode, name := "roomOps",
             args := [("op", V4Arg.str oa.1), ("args", V4Arg.dict oa.2)] }
    | 0x34 | 0x74 | 0xB4 | 0xF4 => do
      let t ← get_result_var
      let obj_a ← get_var_or_word a1
      let obj_b ← get_var_or_word a2
      pure { opcode, name := "getDist", target := some t,
             args := [("obj_a", obj_a), ("obj_b", obj_b)] }
    | 0x35 | 0x75 | 0xB5 | 0xF5 => do
      let t ← get_result_var
      let x ← get_var_or_byte a1
      let y ← get_var_or_byte a2
      pure { opcode, name := "findObject", target := some t,
             args := [("x", x), ("y", y)] }
    | 0x36 | 0x76 | 0xB6 | 0xF6 => do
      let act ← get_var_or_byte a1
      let obj ← get_var_or_word a2
      pure { opcode, name := "walkActorToObject",
             args := [("act", act), ("obj", obj)] }
    | 0x37 | 0x77 | 0xB7 | 0xF7 => do
      let obj ← get_var_or_word a1
      let script ← get_var_or_byte a2
      let args ← get_vararg fuel
      pure { opcode, name := "startObject",
             args := [("obj", obj), ("script", script),
                      ("args", V4Arg.list args)] }
    | 0x38 | 0xB8 => do
      let a ← get_var
      let b ← get_var_or_word a1
      let off ← get_signed_word
      pure { opcode, name := "isLessEqual",
             args := [("a", V4Arg.var a), ("b", b), ("offset", V4Arg.int off)] }
    | 0x3A | 0xBA => do
      let t ← get_result_var
      let a ← get_var_or_word a1
      pure { opcode, name := "subtract", target := some t,
             args := [("a", a)] }
    | 0x3B | 0xBB => do
      let act ← get_var_or_byte a1
      pure { opcode, name := "getActorScale", args := [("act", act)] }
    | 0x3C | 0xBC => do
      let sound ← get_var_or_byte a1
      pure { opcode, name := "stopSound", args := [("sound", sound)] }
    | 0x3D | 0x7D | 0xBD | 0xFD => do
      let t ← get_result_var
      let x ← get_var_or_byte a1
      let y ← get_var_or_byte a2
      pure { opcode, name := "findInventory", target := some t,
             args := [("x", x), ("y", y)] }
    | 0x3F | 0x7F | 0xBF | 0xFF => do
      let x ← get_var_or_word a1
      let y ← get_var_or_word a2
      let opcode2 ← get_byte
      let a1b := (opcode2 &&& 0x80) != 0
      let a2b := (opcode2 &&& 0x40) != 0
      let a3b := (opcode2 &&& 0x20) != 0
      let x2 ← get_var_or_word a1b
      let y2 ← get_var_or_word a2b
      let color ← get_var_or_byte a3b
      pure { opcode, name := "drawBox",
             args := [("x", x), ("y", y), ("x2", x2), ("y2", y2),
                      ("color", color)] }
    | 0x40 => do
      let args ← get_vararg fuel
      pure { opcode, name := "cutscene",
             args := [("args", V4Arg.list args)] }
    | 0x42 | 0xC2 => do
      let script ← get_var_or_byte a1
      let args ← get_vararg fuel
      pure { opcode, name := "chainScript",
             args := [("script", script), ("args", V4Arg.list args)] }
    | 0x43 | 0xC3 => do
      let t ← get_result_var
      let act ← get_var_or_word a1
      pure { opcode, name := "getActorX", target := some t,
             args := [("act", act)] }
    | 0x44 | 0xC4 => do
      let a ← get_var
      let b ← get_var_or_word a1
      let off ← get_signed_word
      pure { opcode, name := "isLess",
             args := [("a", V4Arg.var a), ("b", b), ("offset", V4Arg.int off)] }
    | 0x46 => do
      let t ← get_result_var
      pure { opcode, name := "increment", target := some t }
    | 0x48 | 0xC8 => do
      let a ← get_var
      let b ← get_var_or_word a1
      let off ← get_signed_word
      pure { opcode, name := "isEqual",
             args := [("a", V4Arg.var a), ("b", b), ("offset", V4Arg.int off)] }
    | 0x50 | 0xD0 => do
      let obj ← get_var_or_word a1
      pure { opcode, name := "pickupObject", args := [("obj", obj)] }
    | 0x52 | 0xD2 => do
      let act ← get_var_or_byte a1
      pure { opcode, name := "actorFollowCamera", args := [("act", act)] }
    | 0x54 | 0xD4 => do
      let obj ← get_var_or_word a1
      let name ← get_text_tokens fuel
      pure { opcode, name := "setObjectName",
             args := [("obj", obj), ("name", V4Arg.texts name)] }
    | 0x56 | 0xD6 => do
      let t ← get_result_var
      let act ← get_var_or_byte a1
      pure { opcode, name := "getActorMoving", target := some t,
             args := [("act", act)] }
    | 0x57 | 0xD7 => do
      let t ← get_result_var
      let a ← get_var_or_word a1
      pure { opcode, name := "or", target := some t, args := [("a", a)] }
    | 0x58 => do
      let test ← get_byte
      pure { opcode,
             name := if test != 0 then "beginOverride" else "endOverride" }
    | 0x5A | 0xDA => do
      let t ← get_result_var
      let a ← get_var_or_word a1
      pure { opcode, name := "add", target := some t, args := [("a", a)] }
    | 0x5B | 0xDB => do
      let t ← get_result_var
      let a ← get_var_or_word a1
      pure { opcode, name := "divide", target := some t, args := [("a", a)] }
    | 0x5C | 0xDC => do
      let op ← get_byte
      let effect ← if (op &&& 0x1F) == 3 then
          if (op &&& 0x80) != 0 then do
            let v ← get_var
            pure (V4Arg.var v)
          else do
            let w ← get_signed_word
            pure (V4Arg.int w)
        else
          pure V4Arg.null
      pure { opcode, name := "oldRoomEffect",
             args := [("op", V4Arg.int op), ("effect", effect)] }
    | 0x5D | 0xDD => do
      let obj ← get_var_or_word a1
      let cls ← get_vararg fuel
      pure { opcode, name := "setClass",
             args := [("obj", obj), ("cls", V4Arg.list cls)] }
    | 0x60 | 0xE0 => do
      let scr ← get_var_or_byte a1
      pure { opcode, name := "freezeScripts", args := [("scr", scr)] }
    | 0x62 | 0xE2 => do
      let idx ← get_var_or_byte a1
      pure { opcode, name := "stopScript", args := [("idx", idx)] }
    | 0x63 | 0xE3 => do
      let t ← get_result_var
      let act ← get_var_or_byte a1
      pure { opcode, name := "getActorFacing", target := some t,
             args := [("act", act)] }
    | 0x68 | 0xE8 => do
      let t ← get_result_var
      let idx ← get_var_or_byte a1
      pure { opcode, name := "isScriptRunning", target := some t,
             args := [("idx", idx)] }
    | 0x6C | 0xEC => do
      let t ← get_result_var
      let act ← get_var_or_byte a1
      pure { opcode, name := "getActorWidth", target := some t,
             args := [("act", act)] }
    | 0x70 | 0xF0 => do
      let lights ← get_var_or_byte a1
      let x_strips ← get_byte
      let y_strips ← get_byte
      pure { opcode, name := "lights",
             args := [("lights", lights), ("x_strips", V4Arg.int x_strips),
                      ("y_strips", V4Arg.int y_strips)] }
    | 0x71 | 0xF1 => do
      let t ← get_result_var
      let act ← get_var_or_byte a1
      pure { opcode, name := "getActorCostume", target := some t,
             args := [("act", act)] }
    | 0x72 | 0xF2 => do
      let room ← get_var_or_byte a1
      pure { opcode, name := "loadRoom", args := [("room", room)] }
    | 0x78 | 0xF8 => do
      let a ← get_var
      let b ← get_var_or_word a1
      let off ← get_signed_word
      pure { opcode, name := "isGreater",
             args := [("a", V4Arg.var a), ("b", b), ("offset", V4Arg.int off)] }
    | 0x7A | 0xFA => do
      let verb ← get_var_or_byte a1
      let ops ← parse_verbops fuel fuel
      pure { opcode, name := "verbOps",
             args := [("verb", verb), ("ops", V4Arg.ops ops)] }
    | 0x7B | 0xFB => do
      let t ← get_result_var
      let act ← get_var_or_byte a1
      pure { opcode, name := "getActorWalkBox", target := some t,
             args := [("act", act)] }
    | 0x7C | 0xFC => do
      let t ← get_result_var
      let _snd ← get_var_or_byte a1
      pure { opcode, name := "isSoundRunning", target := some t }
    | 0x80 =>
      pure { opcode, name := "breakHere" }
    | 0x98 => do
      let _op ← parse_systemops
      pure { opcode, name := "systemOps" }
    | 0xA8 => do
      let a ← get_var
      let off ← get_signed_word
      pure { opcode, name := "notEqualZero",
             args := [("a", V4Arg.var a), ("offset", V4Arg.int off)] }
    | 0xAB => do
      let oa ← parse_saverestoreverbs
      pure { opcode, name := "saveRestoreVerbs",
             args := [("op", oa.1), ("args", V4Arg.dict oa.2)] }
    | 0xAC => do
      let t ← get_result_var
      let expr ← parse_expression fuel
      pure { opcode, name := "expression", target := some t,
             args := [("expr", expr)] }
    | 0xAE => do
      let args ← parse_wait
      pure { opcode, name := "wait", args := args }
    | 0xC0 =>
      pure { opcode, name := "endCutscene" }
    | 0xC6 => do
      let t ← get_result_var
      pure { opcode, name := "decrement", target := some t }
    | 0xCC => do
      let val ← get_byte
      let sources ← pseudoroom_loop fuel
      pure { opcode, name := "pseudoRoom",
             args := [("val", V4Arg.int val),
                      ("sources", V4Arg.list (sources.map V4Arg.int))] }
    | 0xD8 => do
      let string ← parse_sostring fuel fuel
      pure { opcode, name := "printEgo",
             args := [("string", V4Arg.ops string)] }
    | _ =>
      pure { opcode, name := "unk" }

/-- Loop of `disasm.parse_expression`.  The Python builds a display
string on a stack; only the byte consumption and the stack arity (pops of
an empty stack raise) are modelled — the final string content is not
needed by any consumer.  Returns the final stack depth. -/
def parse_expression_loop : Nat → Nat → Parser Nat
  | 0, _ => pfail
  | fuel+1, stack => do
    let opcode ← get_byte
    if opcode == 0xFF then
      pure stack
    else do
      let a1 := (opcode &&& 0x80) != 0
      match opcode &&& 0x1F with
      | 1 => do
        let _ ← get_var_or_word a1
        parse_expression_loop fuel (stack + 1)
      | 2 | 3 | 4 | 5 =>
        if stack ≥ 2 then
          parse_expression_loop fuel (stack - 1)
        else
          pfail
      | 6 => do
        let _instr ← parse_instr_body fuel
        parse_expression_loop fuel (stack + 1)
      | _ => parse_expression_loop fuel stack

/-- `disasm.parse_expression`: runs the expression loop and checks that
exactly one value is left on the stack (otherwise the source warns and
returns the string BAD). -/
def parse_expression : Nat → Parser V4Arg
  | 0 => pfail
  | fuel+1 => do
    let stack ← parse_expression_loop fuel 0
    if stack != 1 then
      pure (V4Arg.str "BAD")
    else
      pure (V4Arg.str "expr")

end

/-- `disasm.get_v4_instr`: decode one instruction and record the exact
consumed bytes in `raw` (the source seeks back and re-reads the consumed
span). -/
def get_v4_instr (fuel : Nat) : Parser V4Instr := fun bs =>
  match parse_instr_body fuel bs with
  | Option.none => Option.none
  | some (instr, n) => some ({ instr with raw := bs.take n }, n)

/-- Loop of `disasm.scumm_v4_tokenizer`: `pos` is the absolute offset of
the next instruction; a clean end of stream stops the loop, a decode
failure fails the whole tokenization (a Python exception), and with
`dump_all = false` the loop stops right after the first
`stopObjectCode`. -/
def tok_loop (ifuel : Nat) : Nat → Nat → Bool → List Nat →
    Option (List (Nat × V4Instr))
  | 0, _, _, _ => Option.none
  | _+1, _, _, [] => some []
  | fuel+1, pos, dumpAll, bs => do
    let (instr, n) ← get_v4_instr ifuel bs
    if !dumpAll && instr.name == "stopObjectCode" then
      some [(pos, instr)]
    else do
      let rest ← tok_loop ifuel fuel (pos + n) dumpAll (bs.drop n)
      some ((pos, instr) :: rest)

/-- `disasm.scumm_v4_tokenizer` (the printing parameters of the source
are display-only and omitted).  Decodes `data` from `offset`; recorded
offsets are absolute positions in `data`. -/
def scumm_v4_tokenizer (data : List Nat) (offset : Nat := 0)
    (dump_all : Bool := true) : Option (List (Nat × V4Instr)) :=
  tok_loop (data.length + 1) (data.length + 1) offset dump_all
    (data.drop offset)

/-- The `isinstance(x, V4Var)` test used throughout the encoder to pick
the argument-source flag bit. -/
def isVar : V4Arg → Bool
  | V4Arg.var _ => true
  | _ => false

/-- The `x.raw() if isinstance(x, V4Var) else utils.to_uint8(x)` pattern
of the encoder (a non-int, non-var value raises). -/
def enc_var_or_uint8 : V4Arg → Option (List Nat)
  | V4Arg.var v => some (var_raw v)
  | V4Arg.int n => some (to_uint8 n)
  | _ => Option.none

/-- The `x.raw() if isinstance(x, V4Var) else utils.to_int16_le(x)`
pattern of the encoder. -/
def enc_var_or_int16 : V4Arg → Option (List Nat)
  | V4Arg.var v => some (var_raw v)
  | V4Arg.int n => some (to_int16_le n)
  | _ => Option.none

/-- Read an int argument (arithmetic on any other payload raises). -/
def arg_int : V4Arg → Option Int
  | V4Arg.int n => some n
  | _ => Option.none

/-- `disasm.stringops_to_bytes`. -/
def stringops_to_bytes (op : String) (args : Args) (target : Option V4Var) :
    Option (List Nat) :=
  match op with
  | "loadstring" => do
    let index ← args.lookup "index"
    let a1 := isVar index
    let opcode := 0x01 ||| (if a1 then 0x80 else 0x00)
    let ib ← enc_var_or_uint8 index
    let sarg ← args.lookup "string"
    let ts ← (match sarg with
      | V4Arg.texts ts => some ts
      | _ => Option.none)
    let sb ← text_tokens_to_bytes ts
    pure ([opcode] ++ ib ++ sb)
  | "copystring" => do
    let a ← args.lookup "a"
    let b ← args.lookup "b"
    let a1 := isVar a
    let a2 := isVar b
    let opcode := 0x02 ||| (if a1 then 0x80 else 0x00) |||
      (if a2 then 0x40 else 0x00)
    let ab ← enc_var_or_uint8 a
    let bb ← enc_var_or_uint8 b
    pure ([opcode] ++ ab ++ bb)
  | "setstringchar" => do
    let a ← args.lookup "a"
    let b ← args.lookup "b"
    let c ← args.lookup "c"
    let a1 := isVar a
    let a2 := isVar b
    let a3 := isVar c
    let opcode := 0x03 ||| (if a1 then 0x80 else 0x00) |||
      (if a2 then 0x40 else 0x00) ||| (if a3 then 0x20 else 0x00)
    let ab ← enc_var_or_uint8 a
    let bb ← enc_var_or_uint8 b
    let cb ← enc_var_or_uint8 c
    pure ([opcode] ++ ab ++ bb ++ cb)
  | "getstringchar" => do
    let a ← args.lookup "a"
    let b ← args.lookup "b"
    let a1 := isVar a
    let a2 := isVar b
    let opcode := 0x04 ||| (if a1 then 0x80 else 0x00) |||
      (if a2 then 0x40 else 0x00)
    let t ← target
    let ab ← enc_var_or_uint8 a
    let bb ← enc_var_or_uint8 b
    pure ([opcode] ++ var_raw t ++ ab ++ bb)
  | "createemptystring" => do
    let a ← args.lookup "a"
    let b ← args.lookup "b"
    let a1 := isVar a
    let a2 := isVar b
    let opcode := 0x05 ||| (if a1 then 0x80 else 0x00) |||
      (if a2 then 0x40 else 0x00)
    let ab ← enc_var_or_uint8 a
    let bb ← enc_var_or_uint8 b
    pure ([opcode] ++ ab ++ bb)
  | _ => pure []

/-- Serialise one verbOps sub-op (`disasm.verbops_to_bytes` loop body);
unknown sub-op names emit nothing.  Source quirks kept: `SO_VERB_COLOR`
and `SO_VERB_HICOLOR` never set the variable flag on the emitted opcode,
and `SO_VERB_DIMCOLOR` / `SO_VERB_KEY` / `SO_VERB_ASSIGN_OBJECT` emit a
16-bit immediate although the parser reads a byte. -/
def verbop_to_bytes (so : SubOp) : Option (List Nat) :=
  match so.1 with
  | "SO_VERB_IMAGE" => do
    let obj ← so.2.lookup "obj"
    let a1 := isVar obj
    let opcode := 0x01 ||| (if a1 then 0x80 else 0x00)
    let ob ← enc_var_or_int16 obj
    pure ([opcode] ++ ob)
  | "SO_VERB_NAME" => do
    let targ ← so.2.lookup "text"
    let ts ← (match targ with
      | V4Arg.texts ts => some ts
      | _ => Option.none)
    let tb ← text_tokens_to_bytes ts
    pure ([0x02] ++ tb)
  | "SO_VERB_COLOR" => do
    let color ← so.2.lookup "color"
    let a1 := isVar color
    let cb ← if a1 then
        (match color with
          | V4Arg.var v => some (var_raw v)
          | _ => Option.none)
      else do
        let n ← arg_int color
        pure (to_uint8 n)
    pure ([0x03] ++ cb)
  | "SO_VERB_HICOLOR" => do
    let color ← so.2.lookup "color"
    let a1 := isVar color
    let cb ← if a1 then
        (match color with
          | V4Arg.var v => some (var_raw v)
          | _ => Option.none)
      else do
        let n ← arg_int color
        pure (to_uint8 n)
    pure ([0x04] ++ cb)
  | "SO_VERB_AT" => do
    let x ← so.2.lookup "x"
    let y ← so.2.lookup "y"
    let a1 := isVar x
    let a2 := isVar y
    let opcode := 0x05 ||| (if a1 then 0x80 else 0x00) |||
      (if a2 then 0x40 else 0x00)
    let xb ← enc_var_or_int16 x
    let yb ← enc_var_or_int16 y
    pure ([opcode] ++ xb ++ yb)
  | "SO_VERB_ON" => pure [0x06]
  | "SO_VERB_OFF" => pure [0x07]
  | "SO_VERB_DELETE" => pure [0x08]
  | "SO_VERB_NEW" => pure [0x09]
  | "SO_VERB_DIMCOLOR" => do
    let color ← so.2.lookup "color"
    let a1 := isVar color
    let opcode := 0x10 ||| (if a1 then 0x80 else 0x00)
    let cb ← enc_var_or_int16 color
    pure ([opcode] ++ cb)
  | "SO_VERB_DIM" => pure [0x11]
  | "SO_VERB_KEY" => do
    let key ← so.2.lookup "key"
    let a1 := isVar key
    let opcode := 0x12 ||| (if a1 then 0x80 else 0x00)
    let kb ← enc_var_or_int16 key
    pure ([opcode] ++ kb)
  | "SO_VERB_CENTER" => pure [0x13]
  | "SO_VERB_NAME_STR" => do
    let idx ← so.2.lookup "idx"
    let a1 := isVar idx
    let opcode := 0x14 ||| (if a1 then 0x80 else 0x00)
    let ib ← enc_var_or_int16 idx
    pure ([opcode] ++ ib)
  | "SO_VERB_ASSIGN_OBJECT" => do
    let obj ← so.2.lookup "obj"
    let room ← so.2.lookup "room"
    let a1 := isVar obj
    let opcode := 0x16 ||| (if a1 then 0x80 else 0x00)
    let ob ← enc_var_or_int16 obj
    let rb ← enc_var_or_int16 room
    pure ([opcode] ++ ob ++ rb)
  | "SO_VERB_BACKCOLOR" => do
    let color ← so.2.lookup "color"
    let a1 := isVar color
    let opcode := 0x17 ||| (if a1 then 0x80 else 0x00)
    let cb ← enc_var_or_int16 color
    pure ([opcode] ++ cb)
  | _ => pure []

/-- `disasm.verbops_to_bytes`: serialise the sub-ops and append the 0xFF
terminator. -/
def verbops_to_bytes (ops : List SubOp) : Option (List Nat) := do
  let parts ← mapOptionM verbop_to_bytes ops
  pure (parts.flatten ++ [0xFF])

/-- `disasm.sostring_to_bytes`: serialise print sub-ops.  A
`SO_TEXTSTRING` returns immediately after its token stream (dropping any
later sub-ops and the terminator); otherwise a terminating 0xFF is
appended.  Unknown sub-op names emit nothing. -/
def sostring_to_bytes : List SubOp → Option (List Nat)
  | [] => pure [0xFF]
  | so :: rest =>
    match so.1 with
    | "SO_AT" => do
      let xpos ← so.2.lookup "xpos"
      let ypos ← so.2.lookup "ypos"
      let a1 := isVar xpos
      let a2 := isVar ypos
      let opcode := 0x00 ||| (if a1 then 0x80 else 0x00) |||
        (if a2 then 0x40 else 0x00)
      let xb ← enc_var_or_int16 xpos
      let yb ← enc_var_or_int16 ypos
      let rb ← sostring_to_bytes rest
      pure ([opcode] ++ xb ++ yb ++ rb)
    | "SO_COLOR" => do
      let color ← so.2.lookup "color"
      let a1 := isVar color
      let opcode := 0x01 ||| (if a1 then 0x80 else 0x00)
      let cb ← enc_var_or_uint8 color
      let rb ← sostring_to_bytes rest
      pure ([opcode] ++ cb ++ rb)
    | "SO_CLIPPED" => do
      let right ← so.2.lookup "right"
      let a1 := isVar right
      let opcode := 0x02 ||| (if a1 then 0x80 else 0x00)
      let rb1 ← enc_var_or_uint8 right
      let rb ← sostring_to_bytes rest
      pure ([opcode] ++ rb1 ++ rb)
    | "SO_ERASE" => do
      let width ← so.2.lookup "width"
      let height ← so.2.lookup "height"
      let a1 := isVar width
      let a2 := isVar height
      let opcode := 0x03 ||| (if a1 then 0x80 else 0x00) |||
        (if a2 then 0x40 else 0x00)
      let wb ← enc_var_or_int16 width
      let hb ← enc_var_or_int16 height
      let rb ← sostring_to_bytes rest
      pure ([opcode] ++ wb ++ hb ++ rb)
    | "SO_CENTER" => do
      let rb ← sostring_to_bytes rest
      pure ([0x04] ++ rb)
    | "SO_LEFT" => do
      let rb ← sostring_to_bytes rest
      pure ([0x06] ++ rb)
    | "SO_OVERHEAD" => do
      let rb ← sostring_to_bytes rest
      pure ([0x07] ++ rb)
    | "SO_SAY_VOICE" => do
      let off ← so.2.lookup "offset"
      let delay ← so.2.lookup "delay"
      let a1 := isVar off
      let a2 := isVar delay
      let opcode := 0x08 ||| (if a1 then 0x80 else 0x00) |||
        (if a2 then 0x40 else 0x00)
      let ob ← enc_var_or_int16 off
      let db ← enc_var_or_int16 delay
      let rb ← sostring_to_bytes rest
      pure ([opcode] ++ ob ++ db ++ rb)
    | "SO_TEXTSTRING" => do
      let sarg ← so.2.lookup "str"
      let ts ← (match sarg with
        | V4Arg.texts ts => some ts
        | _ => Option.none)
      let tb ← text_tokens_to_bytes ts
      pure ([0x0F] ++ tb)
    | _ => sostring_to_bytes rest

/-- `disasm.v4_instr_to_bytes`: re-encode an instruction.  Covered
instruction names are re-serialised from their parsed arguments; every
other instruction is emitted as its stored `raw` bytes. -/
def v4_instr_to_bytes (instr : V4Instr) : Option (List Nat) :=
  match instr.name with
  | "isGreaterEqual" | "isNotEqual" | "isLessEqual" | "isLess" | "isEqual"
  | "isGreater" => do
    let a ← instr.args.lookup "a"
    let b ← instr.args.lookup "b"
    let offv ← instr.args.lookup "offset"
    let off ← arg_int offv
    let a1 := isVar b
    let base : Nat := match instr.name with
      | "isGreaterEqual" => 0x04
      | "isNotEqual" => 0x08
      | "isLessEqual" => 0x38
      | "isLess" => 0x44
      | "isEqual" => 0x48
      | _ => 0x78
    let opcode := base ||| (if a1 then 0x80 else 0x00)
    let ab ← (match a with
      | V4Arg.var v => some (var_raw v)
      | _ => Option.none)
    let bb ← enc_var_or_int16 b
    pure ([opcode] ++ ab ++ bb ++ to_int16_le off)
  | "ifState" | "ifNotState" => do
    let obj ← instr.args.lookup "obj"
    let val ← instr.args.lookup "val"
    let offv ← instr.args.lookup "offset"
    let off ← arg_int offv
    let a1 := isVar obj
    let a2 := isVar val
    let base : Nat := if instr.name == "ifState" then 0x0F else 0x2F
    let opcode := base ||| (if a1 then 0x80 else 0x00) |||
      (if a2 then 0x40 else 0x00)
    let ob ← enc_var_or_int16 obj
    let vb ← enc_var_or_uint8 val
    pure ([opcode] ++ ob ++ vb ++ to_int16_le off)
  | "print" => do
    let act ← instr.args.lookup "act"
    let a1 := isVar act
    let opcode := 0x14 ||| (if a1 then 0x80 else 0x00)
    let ab ← enc_var_or_uint8 act
    let opsv ← instr.args.lookup "ops"
    let ops ← (match opsv with
      | V4Arg.ops os => some os
      | _ => Option.none)
    let sb ← sostring_to_bytes ops
    pure ([opcode] ++ ab ++ sb)
  | "jumpRelative" => do
    let offv ← instr.args.lookup "offset"
    let off ← arg_int offv
    pure ([0x18] ++ to_int16_le off)
  | "move" => do
    let t ← instr.target
    let value ← instr.args.lookup "value"
    let a1 := isVar value
    let opcode := 0x1A ||| (if a1 then 0x80 else 0x00)
    let vb ← enc_var_or_int16 value
    pure ([opcode] ++ var_raw t ++ vb)
  | "ifClassOfIs" => do
    let obj ← instr.args.lookup "obj"
    let classes ← instr.args.lookup "classes"
    let cls ← (match classes with
      | V4Arg.list xs => some xs
      | _ => Option.none)
    let offv ← instr.args.lookup "offset"
    let off ← arg_int offv
    let a1 := isVar obj
    let opcode := 0x1D ||| (if a1 then 0x80 else 0x00)
    let ob ← enc_var_or_int16 obj
    let cb ← mapOptionM (fun klass => do
      let kb ← enc_var_or_int16 klass
      pure ((if isVar klass then [0x80] else [0x00]) ++ kb)) cls
    pure ([opcode] ++ ob ++ cb.flatten ++ [0xFF] ++ to_int16_le off)
  | "isActorInBox" => do
    let act ← instr.args.lookup "act"
    let box ← instr.args.lookup "box"
    let offv ← instr.args.lookup "offset"
    let off ← arg_int offv
    let a1 := isVar act
    let a2 := isVar box
    let opcode := 0x1F ||| (if a1 then 0x80 else 0x00) |||
      (if a2 then 0x40 else 0x00)
    let ab ← enc_var_or_uint8 act
    let bb ← enc_var_or_uint8 box
    pure ([opcode] ++ ab ++ bb ++ to_int16_le off)
  | "stringOps" => do
    let opv ← instr.args.lookup "op"
    let op ← (match opv with
      | V4Arg.str s => some s
      | _ => Option.none)
    let argsv ← instr.args.lookup "args"
    let sargs ← (match argsv with
      | V4Arg.dict kvs => some kvs
      | _ => Option.none)
    let sb ← stringops_to_bytes op sargs instr.target
    pure ([0x27] ++ sb)
  | "equalZero" | "notEqualZero" => do
    let a ← instr.args.lookup "a"
    let offv ← instr.args.lookup "offset"
    let off ← arg_int offv
    let opcode : Nat := if instr.name == "equalZero" then 0x28 else 0xA8
    let ab ← (match a with
      | V4Arg.var v => some (var_raw v)
      | _ => Option.none)
    pure ([opcode] ++ ab ++ to_int16_le off)
  | "loadRoomWithEgo" => do
    let obj ← instr.args.lookup "obj"
    let room ← instr.args.lookup "room"
    let xv ← instr.args.lookup "x"
    let yv ← instr.args.lookup "y"
    let x ← arg_int xv
    let y ← arg_int yv
    let a1 := isVar obj
    let a2 := isVar room
    let opcode := 0x24 ||| (if a1 then 0x80 else 0x00) |||
      (if a2 then 0x40 else 0x00)
    let ob ← enc_var_or_int16 obj
    let rb ← enc_var_or_uint8 room
    pure ([opcode] ++ ob ++ rb ++ to_int16_le x ++ to_int16_le y)
  | "actorFollowCamera" => do
    let act ← instr.args.lookup "act"
    let a1 := isVar act
    let opcode := 0x52 ||| (if a1 then 0x80 else 0x00)
    let ab ← enc_var_or_int16 act
    pure ([opcode] ++ ab)
  | "verbOps" => do
    let verb ← instr.args.lookup "verb"
    let a1 := isVar verb
    let opcode := 0x7A ||| (if a1 then 0x80 else 0x00)
    let vb ← enc_var_or_uint8 verb
    let opsv ← instr.args.lookup "ops"
    let ops ← (match opsv with
      | V4Arg.ops os => some os
      | _ => Option.none)
    let ob ← verbops_to_bytes ops
    pure ([opcode] ++ vb ++ ob)
  | "printEgo" => do
    let sv ← instr.args.lookup "string"
    let ops ← (match sv with
      | V4Arg.ops os => some os
      | _ => Option.none)
    let sb ← sostring_to_bytes ops
    pure ([0xD8] ++ sb)
  | _ => pure instr.raw

/-- Update one key of an argument map in place (Python dict assignment on
an existing key). -/
def set_arg (args : Args) (k : String) (v : V4Arg) : Args :=
  args.map (fun kv => if kv.1 == k then (kv.1, v) else kv)

/-- The old instruction boundaries of a script (`old_bases`: the decode
offsets recorded with each instruction). -/
def script_old_bases (instrs : List (Nat × V4Instr)) : List Int :=
  instrs.map (fun x => (x.1 : Int))

/-- Running byte positions starting at `pos` (the `new_bases` loop of
`instr_list_to_bytes`: append the position, then advance by the length). -/
def running_bases (pos : Int) : List Nat → List Int
  | [] => []
  | n :: rest => pos :: running_bases (pos + (n : Int)) rest

/-- The `instr["name"] == "jumpRelative" and instr["args"]["offset"] == 0`
test of `instr_list_to_bytes` (a zero-offset relative jump is the `nop`
blanking instruction and is left alone). -/
def jump_nop (name : String) (offArg : V4Arg) : Bool :=
  name == "jumpRelative" &&
    (match offArg with
      | V4Arg.int 0 => true
      | _ => false)

/-- Emission of one instruction in `instr_list_to_bytes`: instructions
without an `offset` argument, and zero-offset `jumpRelative` no-ops, are
re-encoded as they are; for any other branch instruction the original
target `off + len(new encoding) + offset` is located among the old
boundaries (`list.index`; a miss raises ValueError) and the offset is
rewritten to `new_bases[target_idx] - len(raw) - new_bases[i]` before
re-encoding. -/
def emit_instr (old_bases new_bases : List Int) (i off : Nat)
    (instr : V4Instr) : Option (List Nat) :=
  match instr.args.lookup "offset" with
  | Option.none => v4_instr_to_bytes instr
  | some offArg =>
    if jump_nop instr.name offArg then
      v4_instr_to_bytes instr
    else do
      let o ← arg_int offArg
      let enc ← v4_instr_to_bytes instr
      let target : Int := (off : Int) + (enc.length : Int) + o
      let ti ← py_list_index old_bases target
      let nb_t ← new_bases.get? ti
      let nb_i ← new_bases.get? i
      let newOff : Int := nb_t - (instr.raw.length : Int) - nb_i
      v4_instr_to_bytes
        { instr with args := set_arg instr.args "offset" (V4Arg.int newOff) }

/-- The new byte positions of `instr_list_to_bytes` (`new_bases`): the
running totals of the re-encoded instruction lengths, starting from the
first recorded offset (`instrs[0][0]`; an empty script raises). -/
def script_new_bases (instrs : List (Nat × V4Instr)) : Option (List Int) := do
  let first ← instrs.head?
  let lens ← mapOptionM (fun x => (v4_instr_to_bytes x.2).map List.length)
    instrs
  pure (running_bases (first.1 : Int) lens)

/-- `disasm.instr_list_to_bytes`: re-emit a whole script.  New byte
positions are the running totals of the re-encoded instruction lengths;
each instruction carrying an `offset` argument (except zero-offset
`jumpRelative` no-ops) has its branch offset rewritten through the
old-position map before emission.  An empty script raises (the source
indexes `instrs[0]`). -/
def instr_list_to_bytes (instrs : List (Nat × V4Instr)) :
    Option (List Nat) := do
  let old_bases := script_old_bases instrs
  let new_bases ← script_new_bases instrs
  let chunks ← mapOptionM
    (fun oii => emit_instr old_bases new_bases oii.1 oii.2.1 oii.2.2)
    instrs.enum
  pure chunks.flatten

/-! Game-data model (`resources.IGameData`): per room, the decoded
script lists.  The chunk-tree index paths, names and archive fields of
the source TypedDicts address mrcrowbar objects and are not needed by the
modelled operations; rooms without an EN/EX chunk have no entry/exit key,
modelled with `Option`. -/

/-- A decoded script: the `list[IDisassembly]` of the source. -/
abbrev Script := List (Nat × V4Instr)

/-- `resources.IObjectData`, restricted to the verb code map. -/
structure IObjectData where
  verbs : List (Nat × Script)

/-- `resources.IRoomData`, restricted to the script-bearing fields. -/
structure IRoomData where
  globals : List (Nat × Script) := []
  locals : List (Nat × Script) := []
  objects : List (Nat × IObjectData) := []
  entry : Option Script := Option.none
  exit : Option Script := Option.none

/-- `resources.IGameData`: room id → room data. -/
abbrev IGameData := List (Nat × IRoomData)

/-- The condition of `mod_misc.turbo_mode.mod_script`: a `move` whose
target is the frame-pace timer variable (id 19) and whose value argument
is an immediate. -/
def turbo_cond (instr : V4Instr) : Bool :=
  instr.name == "move" &&
  (match instr.target with
    | some t => t.id == 19
    | Option.none => false) &&
  (match instr.args.lookup "value" with
    | some (V4Arg.int _) => true
    | _ => false)

/-- The rewrite of `mod_misc.turbo_mode.mod_script`: set the value
argument to the timer interval. -/
def turbo_rewrite (timer_interval : Int) (instr : V4Instr) : V4Instr :=
  if turbo_cond instr then
    { instr with args := set_arg instr.args "value" (V4Arg.int timer_interval) }
  else
    instr

/-- `mod_misc.turbo_mode.mod_script` applied to a whole script (the
source mutates matching instructions in place while iterating). -/
def turbo_mod_script (timer_interval : Int) (script : Script) : Script :=
  script.map (fun oi => (oi.1, turbo_rewrite timer_interval oi.2))

/-- `mod_misc.turbo_mode`: rewrite the timer `move` instructions in the
global and local scripts of every room (these are the only script
collections the source iterates); the per-script writeback
(`update_global_model` / `update_local_model`) re-encodes the script
bytes from exactly these instruction lists. -/
def turbo_mode (content : IGameData) (timer_interval : Int := 2) : IGameData :=
  content.map (fun rkv =>
    (rkv.1,
      { rkv.2 with
        globals := rkv.2.globals.map
          (fun g => (g.1, turbo_mod_script timer_interval g.2)),
        locals := rkv.2.locals.map
          (fun l => (l.1, turbo_mod_script timer_interval l.2)) }))

/-- The instruction constructed by `mod_misc.debug_mode`: a `move` node
built with opcode byte 0x19 (which is `doSentence`, not `move`) assigning
1 to `VAR_DEBUGMODE` (variable 39). -/
def debug_move_instr : V4Instr :=
  { opcode := 0x19, name := "move", args := [("value", V4Arg.int 1)],
    target := some ⟨39, Option.none⟩ }

/-! Room-link model (`mod_rooms`).  Link records hold the room and object
ids as Python ints; the extractor stores instruction operands, and a
variable-reference operand would make the later set/comparison machinery
of the shuffles raise (unhashable dataclass / unordered comparison), so
the model extracts ints and fails where the source would store a
`V4Var`. -/

/-- `mod_rooms.IScriptRef`. -/
structure IScriptRef where
  type : String
  room : Int
  id : Int
  verb : Option Nat

/-- `mod_rooms.IRoomLink`. -/
structure IRoomLink where
  offset : Nat
  source : IScriptRef
  target : IScriptRef
  op : String
  code_room : Nat

/-- Association-list lookup with an Int key against Nat-keyed rows
(Python dict lookup). -/
def lookupInt {β : Type} (l : List (Nat × β)) (k : Int) : Option β :=
  (l.find? (fun kv => (kv.1 : Int) == k)).map (fun kv => kv.2)

/-- `mod_rooms.get_code`: fetch the script a link's source refers to
(`code_room` selects the room, the source id/verb select the script).
An unknown source type yields the empty list, as in the source. -/
def get_code (content : IGameData) (link : IRoomLink) : Option Script :=
  match lookupInt content (link.code_room : Int) with
  | Option.none => Option.none
  | some room =>
    if link.source.type == "object" then do
      let obj ← lookupInt room.objects link.source.id
      match link.source.verb with
      | some v => (obj.verbs.lookup v)
      | Option.none => Option.none
    else if link.source.type == "local" then
      lookupInt room.locals link.source.id
    else if link.source.type == "global" then
      lookupInt room.globals link.source.id
    else
      some []

/-- `mod_rooms.get_code_instr`. -/
def get_code_instr (content : IGameData) (link : IRoomLink) :
    Option V4Instr := do
  let code ← get_code content link
  let entry ← code.get? link.offset
  pure entry.2

/-- Store `script` back at the link's source location. -/
def put_code (content : IGameData) (link : IRoomLink) (script : Script) :
    IGameData :=
  content.map (fun rkv =>
    if (rkv.1 : Int) == (link.code_room : Int) then
      (rkv.1,
        if link.source.type == "object" then
          { rkv.2 with objects := rkv.2.objects.map (fun okv =>
              if (okv.1 : Int) == link.source.id then
                (okv.1, ⟨okv.2.verbs.map (fun vkv =>
                  if some vkv.1 == link.source.verb then (vkv.1, script)
                  else vkv)⟩)
              else okv) }
        else if link.source.type == "local" then
          { rkv.2 with locals := rkv.2.locals.map (fun lkv =>
              if (lkv.1 : Int) == link.source.id then (lkv.1, script)
              else lkv) }
        else if link.source.type == "global" then
          { rkv.2 with globals := rkv.2.globals.map (fun gkv =>
              if (gkv.1 : Int) == link.source.id then (gkv.1, script)
              else gkv) }
        else rkv.2)
    else rkv)

/-- `mod_rooms.set_code_instr`: replace the instruction at the link's
recorded AST index, keeping the recorded byte offset. -/
def set_code_instr (content : IGameData) (link : IRoomLink)
    (instr : V4Instr) : Option IGameData := do
  let code ← get_code content link
  let entry ← code.get? link.offset
  pure (put_code content link (code.set link.offset (entry.1, instr)))

/-- `mod_rooms.find_link`, returning indexes into the link list (the
source returns aliased records; an index faithfully stands for the
record identity). -/
def find_link_idx (links : List IRoomLink) (room : Int) (obj : Int) :
    List Nat :=
  (links.enum.filter (fun il =>
    il.2.source.room == room && il.2.source.id == obj)).map (fun il => il.1)

/-- First match of `find_link` (`find_link(...)[0]`; an empty match list
raises IndexError). -/
def find_link_head (links : List IRoomLink) (room : Int) (obj : Int) :
    Option Nat :=
  (find_link_idx links room obj).head?

/-- `mod_rooms.exchange_links` on link indexes: swap the two link sites'
instructions in the content and swap the two records' targets. -/
def exchange_links (content : IGameData) (links : List IRoomLink)
    (ia ib : Nat) : Option (IGameData × List IRoomLink) := do
  let a ← links.get? ia
  let b ← links.get? ib
  let tmp ← get_code_instr content a
  let dest_instr ← get_code_instr content b
  let content1 ← set_code_instr content a dest_instr
  let content2 ← set_code_instr content1 b tmp
  let links1 := links.set ia { a with target := b.target }
  let links2 := links1.set ib { b with target := a.target }
  pure (content2, links2)

/-- `mod_rooms.forest_room_link_swap`: find the two primary links and
their far-end links, then exchange both pairs. -/
def forest_room_link_swap (content : IGameData) (links : List IRoomLink)
    (src_room src_obj dest_room dest_obj : Int) :
    Option (IGameData × List IRoomLink) := do
  let isrc ← find_link_head links src_room src_obj
  let idest ← find_link_head links dest_room dest_obj
  let src_link ← links.get? isrc
  let dest_link ← links.get? idest
  let isrc_end ← find_link_head links src_link.target.room src_link.target.id
  let idest_end ← find_link_head links dest_link.target.room
    dest_link.target.id
  let st1 ← exchange_links content links isrc idest
  exchange_links st1.1 st1.2 isrc_end idest_end

/-- First phase of `mod_rooms.move_passage`: remove the passage from its
old segment and join its two old neighbours directly.  Returns the
updated state together with the neighbours' old instructions (needed by
the last phase). -/
def move_passage_detach (content : IGameData) (links : List IRoomLink)
    (ia ib : Nat) : Option (IGameData × List IRoomLink × V4Instr × V4Instr) := do
  let a ← links.get? ia
  let b ← links.get? ib
  let ileft ← find_link_head links a.target.room a.target.id
  let iright ← find_link_head links b.target.room b.target.id
  let left ← links.get? ileft
  let right ← links.get? iright
  let a_code ← get_code_instr content a
  let b_code ← get_code_instr content b
  let left_code ← get_code_instr content left
  let right_code ← get_code_instr content right
  let content1 ← set_code_instr content left b_code
  let content2 ← set_code_instr content1 right a_code
  let links1 := links.set ileft
    { left with target := { left.target with
        room := right.source.room, id := right.source.id } }
  let links2 := links1.set iright
    { right with target := { right.target with
        room := left.source.room, id := left.source.id } }
  pure (content2, links2, left_code, right_code)

/-- Second phase of `mod_rooms.move_passage`: attach the passage ends to
the chosen hub exit and its far end. -/
def move_passage_attach (content : IGameData) (links : List IRoomLink)
    (ia ib ic id' : Nat) : Option (IGameData × List IRoomLink) := do
  let a ← links.get? ia
  let b ← links.get? ib
  let c ← links.get? ic
  let d ← links.get? id'
  let c_code ← get_code_instr content c
  let d_code ← get_code_instr content d
  let content1 ← set_code_instr content a d_code
  let content2 ← set_code_instr content1 b c_code
  let links1 := links.set ia
    { a with target := { a.target with
        room := d.target.room, id := d.target.id } }
  let links2 := links1.set ib
    { b with target := { b.target with
        room := c.target.room, id := c.target.id } }
  pure (content2, links2)

/-- Third phase of `mod_rooms.move_passage`: point the chosen hub exit
and its far end at the spliced-in passage. -/
def move_passage_adjust (content : IGameData) (links : List IRoomLink)
    (ia ib ic id' : Nat) (left_code right_code : V4Instr) :
    Option (IGameData × List IRoomLink) := do
  let a ← links.get? ia
  let b ← links.get? ib
  let c ← links.get? ic
  let d ← links.get? id'
  let content1 ← set_code_instr content c left_code
  let content2 ← set_code_instr content1 d right_code
  let links1 := links.set ic
    { c with target := { c.target with
        room := a.source.room, id := a.source.id } }
  let links2 := links1.set id'
    { d with target := { d.target with
        room := b.source.room, id := b.source.id } }
  pure (content2, links2)

/-- `mod_rooms.move_passage` on link indexes `ia ib ic id'` (the
passage's two exits, the chosen hub exit, and its far end), as the
sequence of its three phases.  The phases read the current link records
at each step, mirroring the in-place record mutation of the source. -/
def move_passage (content : IGameData) (links : List IRoomLink)
    (ia ib ic id' : Nat) : Option (IGameData × List IRoomLink) := do
  let st1 ← move_passage_detach content links ia ib
  let st2 ← move_passage_attach st1.1 st1.2.1 ia ib ic id'
  move_passage_adjust st2.1 st2.2 ia ib ic id' st1.2.2.1 st1.2.2.2

/-- `mod_rooms.room_link_inject`. -/
def room_link_inject (content : IGameData) (links : List IRoomLink)
    (src_room src_obj_left src_obj_right dest_room dest_obj : Int) :
    Option (IGameData × List IRoomLink) := do
  let ia ← find_link_head links src_room src_obj_left
  let ib ← find_link_head links src_room src_obj_right
  let ic ← find_link_head links dest_room dest_obj
  let c ← links.get? ic
  let id' ← find_link_head links c.target.room c.target.id
  move_passage content links ia ib ic id'

/-- Inner scan of `mod_rooms.find_forest_links`: first
`loadRoomWithEgo` at or after a position. -/
def forest_inner_scan (l : Script) (p : Nat) : Option Nat :=
  ((l.drop p).findIdx? (fun oi => oi.2.name == "loadRoomWithEgo")).map
    (fun q => q + p)

/-- Outer loop of `mod_rooms.find_forest_links`: scan for
`isEqual a=VAR_ROOM b=src` guards, each followed by the next
`loadRoomWithEgo`, and emit one virtual link per pair. -/
def find_forest_links_loop (obj_id : Int) (verb_id : Nat) (l : Script) :
    Nat → Nat → Option (List IRoomLink)
  | _, 0 => Option.none
  | off, fuel+1 =>
    match l.get? off with
    | Option.none => some []
    | some (_, w) =>
      if w.name == "isEqual" then
        match w.args.lookup "a" with
        | Option.none => Option.none
        | some aArg =>
          let isGuard : Bool := match aArg with
            | V4Arg.var ⟨4, Option.none⟩ => true
            | _ => false
          if isGuard then
            match w.args.lookup "b" with
            | Option.none => Option.none
            | some bArg =>
              match arg_int bArg with
              | Option.none => Option.none
              | some src_room =>
                match forest_inner_scan l (off + 1) with
                | Option.none =>
                  -- the inner loop ran off the end; the outer loop ends too
                  some []
                | some q =>
                  match l.get? q with
                  | Option.none => Option.none
                  | some (_, x) => do
                    let roomArg ← x.args.lookup "room"
                    let room ← arg_int roomArg
                    let objArg ← x.args.lookup "obj"
                    let obj ← arg_int objArg
                    let rest ← find_forest_links_loop obj_id verb_id l
                      (q + 1) fuel
                    pure ({ offset := q,
                            source := ⟨"object", src_room, obj_id,
                              some verb_id⟩,
                            target := ⟨"object", room, obj, some verb_id⟩,
                            op := "loadRoomWithEgo",
                            code_room := 58 } :: rest)
          else
            find_forest_links_loop obj_id verb_id l (off + 1) fuel
      else
        find_forest_links_loop obj_id verb_id l (off + 1) fuel

/-- `mod_rooms.find_forest_links`. -/
def find_forest_links (obj_id : Int) (verb_id : Nat) (l : Script) :
    Option (List IRoomLink) :=
  find_forest_links_loop obj_id verb_id l 0 (l.length + 1)

/-- Set insertion (Python set semantics, kept in first-seen order; the
shuffles normalise with `sorted` or a stream-driven shuffle before any
order-sensitive use). -/
def insert_new (x : Int) (l : List Int) : List Int :=
  if l.contains x then l else l ++ [x]

/-- Ordered insertion (helper for `py_sorted`). -/
def py_sorted_insert (x : Int) : List Int → List Int
  | [] => [x]
  | y :: ys => if x ≤ y then x :: y :: ys else y :: py_sorted_insert x ys

/-- `sorted(...)` on Int lists (insertion sort: stable and total, like
Python's sort on ints). -/
def py_sorted (l : List Int) : List Int :=
  l.foldr py_sorted_insert []

/-- `mod_rooms.get_rooms_and_exits`: the room node set and the map from
room to the set of its exit source ids (targets are not added; that line
is commented out in the source). -/
def get_rooms_and_exits (links : List IRoomLink) :
    List Int × List (Int × List Int) :=
  let room_nodes := links.foldl
    (fun acc x => insert_new x.target.room (insert_new x.source.room acc)) []
  let exit_nodes := links.foldl
    (fun acc x => acc.map (fun kv =>
      if kv.1 == x.source.room then (kv.1, insert_new x.source.id kv.2)
      else kv))
    (room_nodes.map (fun r => (r, ([] : List Int))))
  (room_nodes, exit_nodes)

/-- `random.choice(seq)` driven by an abstract randomness stream: the
next stream value selects the index; an empty sequence raises. -/
def py_choice {α : Type} (rng : List Nat) (l : List α) :
    Option (α × List Nat) :=
  match rng with
  | [] => Option.none
  | r :: rest =>
    match l.get? (r % l.length) with
    | Option.none => Option.none
    | some x => some (x, rest)

/-- One Fisher-Yates step sequence of `random.shuffle`, with each
`randbelow` draw taken from the stream. -/
def py_shuffle_aux {α : Type} (a : List α) (rng : List Nat) :
    Nat → Option (List α × List Nat)
  | 0 => some (a, rng)
  | i+1 => do
    let r ← rng.head?
    let j := r % (i + 2)
    let xi ← a.get? (i + 1)
    let xj ← a.get? j
    py_shuffle_aux ((a.set (i + 1) xj).set j xi) rng.tail i

/-- `random.shuffle(seq)` driven by the stream. -/
def py_shuffle {α : Type} (rng : List Nat) (a : List α) :
    Option (List α × List Nat) :=
  match a.length with
  | 0 => some (a, rng)
  | n+1 => py_shuffle_aux a rng n

/-- The four forest subrooms whose links lead to the outer world
(`FOREST_SKIP` in `mod_rooms.shuffle_forest`). -/
def FOREST_SKIP : List Int := [201, 206, 209, 218]

/-- `FOREST_HUBS` of `mod_rooms.shuffle_forest`: forest rooms (id 200+)
outside the skip set with more than two exits. -/
def forest_hubs (room_nodes : List Int) (exit_nodes : List (Int × List Int)) :
    List Int :=
  room_nodes.filter (fun r =>
    decide (200 ≤ r) && !(FOREST_SKIP.contains r) &&
    decide (2 < ((exit_nodes.lookup r).getD []).length))

/-- `FOREST_PASSAGES` of `mod_rooms.shuffle_forest`: forest rooms
outside the skip set with exactly two exits. -/
def forest_passages (room_nodes : List Int)
    (exit_nodes : List (Int × List Int)) : List Int :=
  room_nodes.filter (fun r =>
    decide (200 ≤ r) && !(FOREST_SKIP.contains r) &&
    ((exit_nodes.lookup r).getD []).length == 2)

/-- One exit-pair swap of the hub phase (`src_choices[i]` against
`dest_choices[i]`; a missing index raises). -/
def hub_swap_at (src_hub dest_hub : Int) (src_choices dest_choices : List Int)
    (i : Nat) (st : IGameData × List IRoomLink) :
    Option (IGameData × List IRoomLink) := do
  let s ← src_choices.get? i
  let d ← dest_choices.get? i
  forest_room_link_swap st.1 st.2 src_hub s dest_hub d

/-- Hub phase of `mod_rooms.shuffle_forest`: for each hub in ascending
order, pick a donor hub and a shuffled mapping of its three exits, and
swap the three exit pairs. -/
def shuffle_forest_hub_phase (exit_nodes : List (Int × List Int)) :
    List Int → List Int → IGameData → List IRoomLink → List Nat →
    Option (IGameData × List IRoomLink × List Nat)
  | _, [], content, links, rng => some (content, links, rng)
  | hubs, src_hub :: more, content, links, rng => do
    let others := py_sorted (hubs.filter (fun h => h != src_hub))
    let (dest_hub, rng1) ← py_choice rng others
    let src_choices := py_sorted ((exit_nodes.lookup src_hub).getD [])
    let (dest_choices, rng2) ←
      py_shuffle rng1 ((exit_nodes.lookup dest_hub).getD [])
    let st0 ← hub_swap_at src_hub dest_hub src_choices dest_choices 0
      (content, links)
    let st1 ← hub_swap_at src_hub dest_hub src_choices dest_choices 1 st0
    let st2 ← hub_swap_at src_hub dest_hub src_choices dest_choices 2 st1
    shuffle_forest_hub_phase exit_nodes hubs more st2.1 st2.2 rng2

/-- Passage phase of `mod_rooms.shuffle_forest`: relocate each 2-exit
passage behind a randomly chosen hub exit. -/
def shuffle_forest_passage_phase (exit_nodes : List (Int × List Int))
    (hubs : List Int) :
    List Int → IGameData → List IRoomLink → List Nat →
    Option (IGameData × List IRoomLink × List Nat)
  | [], content, links, rng => some (content, links, rng)
  | src_passage :: more, content, links, rng => do
    let (dest, rng1) ← py_choice rng (py_sorted hubs)
    let (dest_obj, rng2) ← py_choice rng1 ((exit_nodes.lookup dest).getD [])
    let src_choices := py_sorted ((exit_nodes.lookup src_passage).getD [])
    let (shuffled, rng3) ← py_shuffle rng2 src_choices
    let src_a_obj ← shuffled.get? 0
    let src_b_obj ← shuffled.get? 1
    let st ← room_link_inject content links src_passage src_a_obj src_b_obj
      dest dest_obj
    shuffle_forest_passage_phase exit_nodes hubs more st.1 st.2 rng3

/-- `mod_rooms.shuffle_forest`: extract the virtual forest links from
the three dispatcher objects of room 58 (objects 666, 668, 669), then
run the hub swap phase and the passage relocation phase.  The final
`update_object_model` writeback re-encodes the three dispatcher scripts
and does not change the link structure, so it is not modelled. -/
def shuffle_forest (content : IGameData) (rng : List Nat) :
    Option (IGameData × List IRoomLink × List Nat) := do
  let room ← lookupInt content 58
  let links ← [(666 : Int), 668, 669].foldlM (fun acc obj_id => do
    let obj ← lookupInt room.objects obj_id
    let ls ← obj.verbs.foldlM (fun acc2 vkv => do
      let found ← find_forest_links obj_id vkv.1 vkv.2
      pure (acc2 ++ found)) ([] : List IRoomLink)
    pure (acc ++ ls)) ([] : List IRoomLink)
  let re := get_rooms_and_exits links
  let hubs := forest_hubs re.1 re.2
  let passages := forest_passages re.1 re.2
  let st1 ← shuffle_forest_hub_phase re.2 hubs (py_sorted hubs) content links
    rng
  shuffle_forest_passage_phase re.2 hubs (py_sorted passages) st1.1
    st1.2.1 st1.2.2

/-! Model of the load-time index walk and the save path
(`resources.py`). -/

/-- One row of a master-index table (`resources.GlobalIndexItem`). -/
structure IndexEntry where
  room_id : Nat
  offset : Nat

/-- The reverse maps built at the top of `resources.dump_all`:
`(room_id, offset + 2) → global id` for each table row, the position in
the table being the global id. -/
def build_global_map (items : List IndexEntry) : List ((Nat × Nat) × Nat) :=
  items.enum.map (fun igi => ((igi.2.room_id, igi.2.offset + 2), igi.1))

/-- The classification result for one room: which chunk index holds each
global script / costume / sound id. -/
structure RoomScan where
  globals : List (Nat × Nat) := []
  costumes : List (Nat × Nat) := []
  sounds : List (Nat × Nat) := []

/-- The per-room chunk classification loop of `resources.dump_all`
(the claims only concern the `SC`/`SO`/`CO` dispatch; `RO` payload
processing and the print statements are omitted).  Each chunk is given
as its tag and its `get_field_start_offset` value; `k` is the running
chunk index.  An `SC` whose `(room, offset)` key is missing from the
script map prints a warning and is skipped; a `CO` or `SO` with a
missing key is looked up with plain indexing and raises KeyError,
modelled as a `none` result for the whole walk. -/
def scan_room_chunks_loop (room_id : Nat)
    (smap nmap cmap : List ((Nat × Nat) × Nat)) :
    List (Nat × String × Nat) → RoomScan → Option RoomScan
  | [], acc => some acc
  | (k, tag, off) :: rest, acc =>
    if tag == "SC" then
      match smap.lookup (room_id, off) with
      | Option.none =>
        -- WARNING: could not find global matching ...; chunk skipped
        scan_room_chunks_loop room_id smap nmap cmap rest acc
      | some gid =>
        scan_room_chunks_loop room_id smap nmap cmap rest
          { acc with globals := acc.globals ++ [(gid, k)] }
    else if tag == "CO" then
      match cmap.lookup (room_id, off) with
      | Option.none => Option.none
      | some cid =>
        scan_room_chunks_loop room_id smap nmap cmap rest
          { acc with costumes := acc.costumes ++ [(cid, k)] }
    else if tag == "SO" then
      match nmap.lookup (room_id, off) with
      | Option.none => Option.none
      | some sid =>
        scan_room_chunks_loop room_id smap nmap cmap rest
          { acc with sounds := acc.sounds ++ [(sid, k)] }
    else
      scan_room_chunks_loop room_id smap nmap cmap rest acc

/-- Entry point for the per-room classification walk. -/
def scan_room_chunks (room_id : Nat)
    (smap nmap cmap : List ((Nat × Nat) × Nat))
    (chunks : List (String × Nat)) : Option RoomScan :=
  scan_room_chunks_loop room_id smap nmap cmap
    (chunks.enum.map (fun kc => (kc.1, kc.2.1, kc.2.2))) {}

/-- The whole-file XOR obfuscation applied to each disk archive on
write. -/
def xor69 (bs : List Nat) : List Nat := bs.map (fun b => b ^^^ 0x69)

/-- Output order of `resources.save_all`: the master index first, then
the four disk archives. -/
def save_order : List String :=
  ["000.LFL", "DISK01.LEC", "DISK02.LEC", "DISK03.LEC", "DISK04.LEC"]

/-- The file-writing phase of `resources.save_all` (lines 601-608):
each output is written directly to its destination name, in order; the
master index is written as exported, the disks XOR-0x69 obfuscated.
`exports` abstracts mrcrowbar's `export_data` (offset repair happens on
the in-memory objects before any write and touches no file); a `none`
export is a fatal error, which stops the save leaving the earlier
writes in place.  (The source in fact opens — and truncates — the
destination before computing the export, so a failure also clobbers the
file being written; the model conservatively records only completed
writes.)  Returns the completed writes and whether the save finished. -/
def save_all_trace (exports : String → Option (List Nat)) :
    List (String × List Nat) × Bool :=
  let step := fun (st : List (String × List Nat) × Bool) (name : String) =>
    if st.2 then
      match exports name with
      | Option.none => (st.1, false)
      | some data =>
        (st.1 ++ [(name, if name == "000.LFL" then data else xor69 data)],
          true)
    else
      st
  save_order.foldl step ([], true)

/-! Definitions used by the statements of the claims: well-formedness
predicates, the encoder's covered-name list, and concrete example data
for counterexamples and witnesses. -/

/-- The recorded decode offsets of a script are consistent: the first
instruction sits at `pos` and each next one at the previous offset plus
the previous raw length. -/
def script_offsets_ok : Nat → List (Nat × V4Instr) → Prop
  | _, [] => True
  | pos, (p, i) :: rest => p = pos ∧ script_offsets_ok (pos + i.raw.length) rest

/-- A variable reference whose `var_raw` encoding decodes back to
itself: 16-bit id, the extra word present exactly when bit 0x2000 is
set, and a 16-bit extra. -/
def VarCanon (v : V4Var) : Prop :=
  v.id < 65536 ∧
  (match v.extra with
    | some e => (v.id &&& 0x2000) ≠ 0 ∧ e < 65536
    | Option.none => (v.id &&& 0x2000) = 0)

/-- The canonical sub-language of the text-token byte format on which
the codec round-trips: literals excluding 0x00/0xFF/0xFE, escapes
introduced by 0xFF (never 0xFE) whose sub-token byte is one of
1..3 (newline, keepText, wait) or 4..7 (the VarRef getters, with a
canonical VarRef encoding), closed off by the 0x00 terminator. -/
inductive TextCanon : List Nat → Prop
  | term : TextCanon [0]
  | lit (b : Nat) (rest : List Nat) : b ≠ 0 → b ≠ 0xFF → b ≠ 0xFE →
      TextCanon rest → TextCanon (b :: rest)
  | esc0 (t : Nat) (rest : List Nat) : t ∈ [1, 2, 3] → TextCanon rest →
      TextCanon (0xFF :: t :: rest)
  | escv (t : Nat) (v : V4Var) (rest : List Nat) : t ∈ [4, 5, 6, 7] →
      VarCanon v → TextCanon rest →
      TextCanon (0xFF :: t :: (var_raw v ++ rest))

/-- The instruction names `v4_instr_to_bytes` re-serialises from parsed
arguments (every other name falls through to the stored raw bytes). -/
def encoder_covered : List String :=
  ["isGreaterEqual", "isNotEqual", "isLessEqual", "isLess", "isEqual",
   "isGreater", "ifState", "ifNotState", "print", "jumpRelative", "move",
   "ifClassOfIs", "isActorInBox", "stringOps", "equalZero", "notEqualZero",
   "loadRoomWithEgo", "actorFollowCamera", "verbOps", "printEgo"]

/-- A decoded-shape `isEqual VAR_ROOM == src` guard (example data). -/
def fguard (src : Int) : V4Instr :=
  { opcode := 0x48, name := "isEqual",
    args := [("a", V4Arg.var ⟨4, Option.none⟩), ("b", V4Arg.int src),
             ("offset", V4Arg.int 0)] }

/-- A decoded-shape `loadRoomWithEgo` hotspot exit (example data). -/
def flrwe (room obj : Int) : V4Instr :=
  { opcode := 0x24, name := "loadRoomWithEgo",
    args := [("obj", V4Arg.int obj), ("room", V4Arg.int room),
             ("x", V4Arg.int 0), ("y", V4Arg.int 0)] }

/-- Build a forest dispatcher script from (guard room, target room,
target object) triples. -/
def mk_forest_script (l : List (Int × Int × Int)) : Script :=
  l.foldl (fun acc p =>
    acc ++ [(acc.length, fguard p.1), (acc.length + 1, flrwe p.2.1 p.2.2)]) []

/-- Example forest content: two 3-way hubs (rooms 210 and 211) wired to
each other and to the two external-exit subrooms 201 and 206; room 206's
link through dispatcher object 666 is its outer-world exit, a
`loadRoomWithEgo` into room 58. -/
def forest_example_content : IGameData :=
  [(58, { objects :=
    [(666, ⟨[(10, mk_forest_script
        [(210, 211, 666), (211, 210, 666), (206, 58, 5)])]⟩),
     (668, ⟨[(10, mk_forest_script
        [(210, 201, 668), (211, 206, 669), (201, 210, 668)])]⟩),
     (669, ⟨[(10, mk_forest_script
        [(210, 206, 666), (211, 201, 669), (206, 211, 668),
         (201, 211, 669)])]⟩)] })]

/-- The room that room 206's outer-world link (dispatcher object 666,
verb 10, instruction index 5) currently loads. -/
def forest_outer_link_room (c : IGameData) : Option Int := do
  let r ← lookupInt c 58
  let o ← lookupInt r.objects 666
  let s ← o.verbs.lookup 10
  let e ← s.get? 5
  let ra ← e.2.args.lookup "room"
  arg_int ra

/-- A decoded-shape `move VAR[19] := k` (example data for the turbo-mode
claim). -/
def move_timer (k : Int) : V4Instr :=
  { opcode := 0x1A, name := "move", args := [("value", V4Arg.int k)],
    target := some ⟨19, Option.none⟩ }

/-- Example content for the turbo-mode claim: one room whose global
script 2 and whose entry script each set the frame-pace timer. -/
def turbo_example_content : IGameData :=
  [(1, { globals := [(2, [(0, move_timer 7)])],
         entry := some [(0, move_timer 5)] })]

/-- Example instruction list for the branch-rewrite claim: an `isEqual`
whose stored raw bytes (9 bytes) are longer than its re-encoded form
(7 bytes), followed by two one-byte instructions at old offsets 5 and 7. -/
def c3_example_list : List (Nat × V4Instr) :=
  [(0, { opcode := 0x48, name := "isEqual",
         args := [("a", V4Arg.var ⟨0, Option.none⟩), ("b", V4Arg.int 5),
                  ("offset", V4Arg.int (-2))],
         raw := [0, 1, 2, 3, 4, 5, 6, 7, 8] }),
   (5, { opcode := 0x00, name := "stopObjectCode", raw := [0] }),
   (7, { opcode := 0x00, name := "stopObjectCode", raw := [0] })]

/-- Decidable branch-target well-formedness of one instruction relative
to a script's old instruction boundaries: any non-no-op branch offset is
an immediate, its argument keys are unduplicated, and the original
branch target `p + len(raw) + offset` lands on an instruction
boundary. -/
def branch_ok (bases : List Int) (p : Nat) (i : V4Instr) : Bool :=
  match i.args.lookup "offset" with
  | Option.none => true
  | some a =>
    if jump_nop i.name a then true
    else match a with
      | V4Arg.int o =>
        decide ((i.args.map Prod.fst).Nodup) &&
          bases.contains ((p : Int) + (i.raw.length : Int) + o)
      | _ => false

/-- The decoded form of the single byte 0x00 (`stopObjectCode`). -/
def stop0 : V4Instr :=
  { opcode := 0x00, name := "stopObjectCode", raw := [0] }

/-- The decoded form of the 7-byte conditional
`isEqual VAR[4] == 7 offset 0` (example data). -/
def C1_i0 : V4Instr :=
  { opcode := 0x48, name := "isEqual",
    args := [("a", V4Arg.var ⟨4, Option.none⟩), ("b", V4Arg.int 7),
             ("offset", V4Arg.int 0)],
    raw := [72, 4, 0, 7, 0, 0, 0] }

/-- The decode of the example script `48 04 00 07 00 00 00 00`. -/
def C1_l0 : List (Nat × V4Instr) := [(0, C1_i0), (7, stop0)]

/-- An export map whose first output succeeds and whose second fails
(example data for the save-path claim). -/
def bad_exports : String → Option (List Nat) :=
  fun name => if name == "000.LFL" then some [1, 2, 3] else Option.none

/-! Helper lemmas. -/


theorem mapOptionM_map {α β : Type} (f : α → Option β) (g : α → β) :
    ∀ (xs : List α), (∀ x ∈ xs, f x = some (g x)) →
      mapOptionM f xs = some (xs.map g) := by
  intro xs
  induction xs with
  | nil => intro _; rfl
  | cons a as ih =>
    intro h
    simp only [mapOptionM, h a (by simp)]
    rw [ih (fun x hx => h x (by simp [hx]))]
    rfl

theorem py_list_index_get {α : Type} [BEq α] [LawfulBEq α] :
    ∀ (xs : List α) (a : α) (ti : Nat), py_list_index xs a = some ti →
      xs[ti]? = some a := by
  intro xs
  induction xs with
  | nil => intro a ti h; simp [py_list_index] at h
  | cons x rest ih =>
    intro a ti h
    simp only [py_list_index] at h
    by_cases hx : x == a
    · rw [if_pos hx] at h
      cases h
      simp [eq_of_beq hx]
    · rw [if_neg hx] at h
      cases hrec : py_list_index rest a with
      | none => rw [hrec] at h; simp at h
      | some ti2 =>
        rw [hrec] at h
        simp at h
        subst h
        simp [ih a ti2 hrec]

theorem py_list_index_of_mem {α : Type} [BEq α] [LawfulBEq α] :
    ∀ (xs : List α) (a : α), a ∈ xs →
      ∃ ti, py_list_index xs a = some ti := by
  intro xs
  induction xs with
  | nil => intro a h; simp at h
  | cons x rest ih =>
    intro a h
    simp only [py_list_index]
    by_cases hx : x == a
    · exact ⟨0, by rw [if_pos hx]⟩
    · rw [if_neg hx]
      have hmem : a ∈ rest := by
        rcases List.mem_cons.mp h with h1 | h1
        · exact absurd (by simp [h1]) hx
        · exact h1
      obtain ⟨ti, hti⟩ := ih a hmem
      exact ⟨ti + 1, by simp [hti]⟩

theorem get?_enumFrom {α : Type} :
    ∀ (l : List α) (k j : Nat),
      (List.enumFrom k l)[j]? = l[j]?.map (fun x => (k + j, x)) := by
  intro l
  induction l with
  | nil => intro k j; simp [List.enumFrom]
  | cons x xs ih =>
    intro k j
    cases j with
    | zero => simp [List.enumFrom]
    | succ j2 =>
      simp only [List.enumFrom, List.getElem?_cons_succ]
      rw [ih (k + 1) j2]
      have harith : k + 1 + j2 = k + (j2 + 1) := by omega
      rw [harith]

theorem get?_enum {α : Type} (l : List α) (j : Nat) :
    (l.enum)[j]? = l[j]?.map (fun x => (j, x)) := by
  have h := get?_enumFrom l 0 j
  simp only [Nat.zero_add] at h
  exact h

theorem lookup_cons_unfold (k k1 : String) (v1 : V4Arg) (rest : Args) :
    List.lookup k ((k1, v1) :: rest) =
      if k == k1 then some v1 else List.lookup k rest := by
  cases h : k == k1 <;> simp [List.lookup, h]

theorem set_arg_cons_unfold (k k1 : String) (v v1 : V4Arg) (rest : Args) :
    set_arg ((k1, v1) :: rest) k v =
      (if k1 == k then (k1, v) else (k1, v1)) :: set_arg rest k v := by
  by_cases h : k1 = k
  · subst h
    simp [set_arg]
  · have hb : (k1 == k) = false := by simpa using h
    simp [set_arg, hb, h]

theorem set_arg_not_mem (k : String) (v : V4Arg) :
    ∀ (args : Args), (∀ kv ∈ args, kv.1 ≠ k) → set_arg args k v = args := by
  intro args
  induction args with
  | nil => intro _; rfl
  | cons kv rest ih =>
    intro h
    obtain ⟨k1, v1⟩ := kv
    have hk : (k1 == k) = false := by
      simp only [beq_eq_false_iff_ne, ne_eq]
      exact h (k1, v1) (by simp)
    rw [set_arg_cons_unfold, hk]
    simp only [Bool.false_eq_true, if_false]
    rw [ih (fun kv2 hm => h kv2 (by simp [hm]))]

theorem set_arg_self (k : String) (v : V4Arg) :
    ∀ (args : Args), (args.map Prod.fst).Nodup →
      args.lookup k = some v → set_arg args k v = args := by
  intro args
  induction args with
  | nil => intro _ h; simp [List.lookup] at h
  | cons kv rest ih =>
    intro hnd h
    obtain ⟨k1, v1⟩ := kv
    simp only [List.map_cons, List.nodup_cons] at hnd
    obtain ⟨hnotin, hndrest⟩ := hnd
    rw [lookup_cons_unfold] at h
    by_cases hk : k = k1
    · subst hk
      rw [if_pos (by simp)] at h
      have hv : v1 = v := by
        injection h with h2
      subst hv
      rw [set_arg_cons_unfold, if_pos (by simp)]
      rw [set_arg_not_mem k v1 rest
        (fun kv2 hm heq => hnotin (List.mem_map.mpr ⟨kv2, hm, heq⟩))]
    · rw [if_neg (by simpa using hk)] at h
      have hbeq2 : (k1 == k) = false := by
        simp only [beq_eq_false_iff_ne, ne_eq]
        exact fun hx => hk hx.symm
      rw [set_arg_cons_unfold, hbeq2]
      simp only [Bool.false_eq_true, if_false]
      rw [ih hndrest h]

theorem lookup_set_arg (k : String) (v : V4Arg) :
    ∀ (args : Args) (w : V4Arg), args.lookup k = some w →
      (set_arg args k v).lookup k = some v := by
  intro args
  induction args with
  | nil => intro w h; simp [List.lookup] at h
  | cons kv rest ih =>
    intro w h
    obtain ⟨k1, v1⟩ := kv
    rw [lookup_cons_unfold] at h
    rw [set_arg_cons_unfold]
    by_cases hk : k = k1
    · subst hk
      rw [if_pos (by simp)]
      rw [lookup_cons_unfold, if_pos (by simp)]
    · have hbeq2 : (k1 == k) = false := by
        simp only [beq_eq_false_iff_ne, ne_eq]
        exact fun hx => hk hx.symm
      rw [hbeq2] at *
      simp only [Bool.false_eq_true, if_false]
      rw [lookup_cons_unfold, if_neg (by simpa using hk)]
      rw [if_neg (by simpa using hk)] at h
      exact ih w h

theorem lookup_set_arg_ne (k k2 : String) (v : V4Arg) (hk : k2 ≠ k) :
    ∀ (args : Args), (set_arg args k v).lookup k2 = args.lookup k2 := by
  intro args
  induction args with
  | nil => rfl
  | cons kv rest ih =>
    obtain ⟨k1, v1⟩ := kv
    rw [set_arg_cons_unfold]
    by_cases h1 : k1 = k
    · rw [if_pos (by simpa using h1)]
      rw [lookup_cons_unfold, lookup_cons_unfold]
      have hne : (k2 == k1) = false := by
        simp only [beq_eq_false_iff_ne, ne_eq]
        intro hx
        exact hk (hx.trans h1)
      rw [hne]
      simp only [Bool.false_eq_true, if_false]
      exact ih
    · rw [if_neg (by simpa using h1)]
      rw [lookup_cons_unfold, lookup_cons_unfold]
      by_cases h2 : k2 = k1
      · rw [if_pos (by simpa using h2), if_pos (by simpa using h2)]
      · rw [if_neg (by simpa using h2), if_neg (by simpa using h2)]
        exact ih

theorem running_bases_eq :
    ∀ (l : List (Nat × V4Instr)) (pos : Nat), script_offsets_ok pos l →
      running_bases (pos : Int) (l.map (fun x => x.2.raw.length)) =
        script_old_bases l := by
  intro l
  induction l with
  | nil => intro pos _; rfl
  | cons pi rest ih =>
    intro pos h
    obtain ⟨p, i⟩ := pi
    simp only [script_offsets_ok] at h
    obtain ⟨hp, hrest⟩ := h
    subst hp
    simp only [List.map_cons, running_bases, script_old_bases]
    have := ih (p + i.raw.length) hrest
    simp only [script_old_bases] at this
    rw [← this]
    simp

theorem tok_loop_nil (ifuel fuel pos : Nat) (da : Bool)
    (l : List (Nat × V4Instr)) (h : tok_loop ifuel fuel pos da [] = some l) :
    l = [] := by
  cases fuel with
  | zero => simp [tok_loop] at h
  | succ f =>
    simp [tok_loop] at h
    exact h

theorem get_v4_instr_raw (fuel : Nat) (bs : List Nat) (i : V4Instr) (n : Nat)
    (h : get_v4_instr fuel bs = some (i, n)) : i.raw = bs.take n := by
  unfold get_v4_instr at h
  cases hp : parse_instr_body fuel bs with
  | none => rw [hp] at h; simp at h
  | some pn =>
    rw [hp] at h
    obtain ⟨body, m⟩ := pn
    simp at h
    obtain ⟨hi, hn⟩ := h
    subst hn
    rw [← hi]

theorem tok_loop_props (ifuel : Nat) :
    ∀ (fuel pos : Nat) (bs : List Nat) (l : List (Nat × V4Instr)),
      tok_loop ifuel fuel pos true bs = some l →
      bs = (l.map (fun x => x.2.raw)).flatten ∧ script_offsets_ok pos l := by
  intro fuel
  induction fuel with
  | zero => intro pos bs l h; simp [tok_loop] at h
  | succ f ih =>
    intro pos bs l h
    cases bs with
    | nil =>
      have := tok_loop_nil ifuel (f + 1) pos true l h
      subst this
      exact ⟨rfl, trivial⟩
    | cons b rest0 =>
      simp only [tok_loop] at h
      cases hget : get_v4_instr ifuel (b :: rest0) with
      | none => rw [hget] at h; simp at h
      | some pn =>
        rw [hget] at h
        obtain ⟨instr, n⟩ := pn
        simp only [Option.pure_def, Option.bind_eq_bind, Option.some_bind,
          Bool.not_true, Bool.false_and, Bool.false_eq_true, if_false] at h
        cases hrest : tok_loop ifuel f (pos + n) true ((b :: rest0).drop n) with
        | none => rw [hrest] at h; simp at h
        | some restl =>
          rw [hrest] at h
          simp at h
          subst h
          obtain ⟨hflat, hoffs⟩ := ih (pos + n) _ restl hrest
          have hraw : instr.raw = (b :: rest0).take n :=
            get_v4_instr_raw ifuel (b :: rest0) instr n hget
          constructor
          · simp only [List.map_cons, List.flatten_cons]
            rw [hraw, ← hflat]
            exact (List.take_append_drop n (b :: rest0)).symm
          · refine ⟨rfl, ?_⟩
            cases restl with
            | nil => trivial
            | cons r rs =>
              have hne : (b :: rest0).drop n ≠ [] := by
                intro hempty
                rw [hempty] at hrest
                have := tok_loop_nil ifuel f (pos + n) true (r :: rs) hrest
                simp at this
              have hn : n < (b :: rest0).length := by
                by_contra hge
                push_neg at hge
                exact hne (List.drop_eq_nil_of_le hge)
              have hlenraw : instr.raw.length = n := by
                rw [hraw, List.length_take]
                simp only [List.length_cons] at hn ⊢
                omega
              rw [hlenraw]
              exact hoffs

theorem tok_loop_stop (ifuel : Nat) :
    ∀ (fuel pos : Nat) (bs : List Nat) (l : List (Nat × V4Instr)),
      tok_loop ifuel fuel pos false bs = some l →
      ∀ (j : Nat) (p : Nat) (i : V4Instr), l[j]? = some (p, i) →
        i.name = "stopObjectCode" → j + 1 = l.length := by
  intro fuel
  induction fuel with
  | zero => intro pos bs l h; simp [tok_loop] at h
  | succ f ih =>
    intro pos bs l h
    cases bs with
    | nil =>
      have := tok_loop_nil ifuel (f + 1) pos false l h
      subst this
      intro j p i hj
      simp at hj
    | cons b rest0 =>
      simp only [tok_loop] at h
      cases hget : get_v4_instr ifuel (b :: rest0) with
      | none => rw [hget] at h; simp at h
      | some pn =>
        rw [hget] at h
        obtain ⟨instr, n⟩ := pn
        simp only [Option.pure_def, Option.bind_eq_bind, Option.some_bind,
          Bool.not_false, Bool.true_and] at h
        cases hstop : (instr.name == "stopObjectCode") with
        | true =>
          rw [hstop] at h
          simp at h
          subst h
          intro j p i hj hname
          cases j with
          | zero => simp
          | succ j2 => simp at hj
        | false =>
          rw [hstop] at h
          simp only [Bool.false_eq_true, if_false] at h
          cases hrest : tok_loop ifuel f (pos + n) false ((b :: rest0).drop n) with
          | none => rw [hrest] at h; simp at h
          | some restl =>
            rw [hrest] at h
            simp at h
            subst h
            intro j p i hj hname
            cases j with
            | zero =>
              simp at hj
              obtain ⟨hp, hi⟩ := hj
              subst hi
              rw [hname] at hstop
              simp at hstop
            | succ j2 =>
              simp at hj ⊢
              have := ih (pos + n) _ restl hrest j2 p i hj hname
              omega

theorem parser_bind_eq {α β : Type} (p : Parser α) (f : α → Parser β)
    (bs : List Nat) :
    (p >>= f) bs = (match p bs with
      | Option.none => Option.none
      | some (a, n) => (f a (bs.drop n)).map (fun r => (r.1, n + r.2))) := by
  show (match p bs with
    | Option.none => Option.none
    | some (a, n) =>
      match f a (bs.drop n) with
      | Option.none => Option.none
      | some (b, m) => some (b, n + m)) = _
  cases p bs with
  | none => rfl
  | some an =>
    obtain ⟨a, n⟩ := an
    show (match f a (bs.drop n) with
      | Option.none => Option.none
      | some (b, m) => some (b, n + m)) =
      (f a (bs.drop n)).map (fun r => (r.1, n + r.2))
    cases f a (bs.drop n) with
    | none => rfl
    | some bm =>
      obtain ⟨b, m⟩ := bm
      rfl

theorem parser_pure {α : Type} (a : α) (bs : List Nat) :
    (pure a : Parser α) bs = some (a, 0) := rfl

theorem mapOptionM_append {α β : Type} (f : α → Option β) :
    ∀ (xs ys : List α) (bs cs : List β),
      mapOptionM f xs = some bs → mapOptionM f ys = some cs →
      mapOptionM f (xs ++ ys) = some (bs ++ cs) := by
  intro xs
  induction xs with
  | nil =>
    intro ys bs cs hx hy
    simp only [mapOptionM] at hx
    cases hx
    simpa using hy
  | cons a as ih =>
    intro ys bs cs hx hy
    simp only [mapOptionM] at hx
    cases hfa : f a with
    | none => rw [hfa] at hx; simp at hx
    | some b =>
      rw [hfa] at hx
      cases hrest : mapOptionM f as with
      | none => rw [hrest] at hx; simp at hx
      | some bs2 =>
        rw [hrest] at hx
        simp at hx
        subst hx
        rw [List.cons_append]
        show (do
          let b2 ← f a
          let rest2 ← mapOptionM f (as ++ ys)
          pure (b2 :: rest2)) = some ((b :: bs2) ++ cs)
        rw [hfa, ih ys bs2 cs hrest hy]
        simp

theorem get_var_canon (v : V4Var) (hv : VarCanon v) (rest : List Nat) :
    get_var (var_raw v ++ rest) = some (v, (var_raw v).length) := by
  obtain ⟨vid, vextra⟩ := v
  obtain ⟨hid, hex⟩ := hv
  have hid2 : vid < 65536 := hid
  cases vextra with
  | none =>
    simp only at hex
    unfold get_var
    rw [parser_bind_eq]
    simp only [var_raw, to_uint16_le, List.cons_append, List.nil_append,
      get_unsigned_word]
    have hword : vid % 256 % 256 + 256 * (vid / 256 % 256 % 256) = vid := by
      omega
    rw [hword]
    have hcond : ((vid &&& 0x2000) != 0) = false := by
      simp [hex]
    rw [hcond]
    rfl
  | some e =>
    simp only at hex
    obtain ⟨hbit, he⟩ := hex
    have he2 : e < 65536 := he
    unfold get_var
    rw [parser_bind_eq]
    simp only [var_raw, to_uint16_le, List.cons_append, List.append_assoc,
      List.nil_append, get_unsigned_word]
    have hword : vid % 256 % 256 + 256 * (vid / 256 % 256 % 256) = vid := by
      omega
    rw [hword]
    have hcond : ((vid &&& 0x2000) != 0) = true := by
      simp [hbit]
    rw [hcond]
    simp only [if_true]
    rw [parser_bind_eq]
    simp only [List.drop_succ_cons, List.drop_zero, get_unsigned_word]
    have hword2 : e % 256 % 256 + 256 * (e / 256 % 256 % 256) = e := by
      omega
    rw [hword2]
    rfl

theorem gtt_canon :
    ∀ (s : List Nat), TextCanon s → ∀ (fuel : Nat), s.length ≤ fuel →
      ∀ (buf : List Nat),
      ∃ toks parts, get_text_tokens_loop fuel buf s = some (toks, s.length) ∧
        mapOptionM text_token_to_bytes toks = some parts ∧
        parts.flatten ++ [0] = buf ++ s := by
  intro s hs
  induction hs with
  | term =>
    intro fuel hf buf
    cases fuel with
    | zero => simp at hf
    | succ f =>
      by_cases hb : buf.isEmpty
      · refine ⟨[], [], ?_, rfl, ?_⟩
        · unfold get_text_tokens_loop
          rw [parser_bind_eq]
          simp [get_byte, hb, parser_pure]
        · have hbe : buf = [] := by simpa using hb
          simp [hbe]
      · refine ⟨[⟨"text", TTData.bytes buf⟩], [buf], ?_, rfl, by simp⟩
        unfold get_text_tokens_loop
        rw [parser_bind_eq]
        simp [get_byte, hb, parser_pure]
  | lit b rest h0 hFF hFE hrest ih =>
    intro fuel hf buf
    cases fuel with
    | zero => simp at hf
    | succ f =>
      have hb0 : (b == 0) = false := by simpa using h0
      have hbFF : (b == 0xFF) = false := by simpa using hFF
      have hbFE : (b == 0xFE) = false := by simpa using hFE
      obtain ⟨toks, parts, hloop, hmap, hflat⟩ :=
        ih f (by simp at hf ⊢; omega) (buf ++ [b])
      refine ⟨toks, parts, ?_, hmap, ?_⟩
      · unfold get_text_tokens_loop
        rw [parser_bind_eq]
        simp only [get_byte, hb0, hbFF, hbFE, Bool.false_eq_true, if_false,
          Bool.or_self, List.drop_succ_cons, List.drop_zero]
        rw [hloop]
        simp [Nat.add_comm]
      · rw [hflat]
        simp
  | esc0 t rest ht hrest ih =>
    intro fuel hf buf
    cases fuel with
    | zero => simp at hf
    | succ f =>
      obtain ⟨toks, parts, hloop, hmap, hflat⟩ :=
        ih f (by simp at hf ⊢; omega) []
      simp only [List.nil_append] at hflat
      simp only [List.mem_cons, List.mem_singleton, List.not_mem_nil,
        or_false] at ht
      rcases ht with h1 | h2 | h3
      case _ =>
        subst h1
        refine ⟨(if buf.isEmpty then []
            else [⟨"text", TTData.bytes buf⟩]) ++
            ⟨"newline", TTData.null⟩ :: toks,
          (if buf.isEmpty then [] else [buf]) ++ [0xFF, 1] :: parts,
          ?_, ?_, ?_⟩
        · unfold get_text_tokens_loop
          rw [parser_bind_eq]
          simp only [get_byte, List.drop_succ_cons, List.drop_zero]
          norm_num
          rw [parser_bind_eq]
          simp only [get_byte, List.drop_succ_cons, List.drop_zero]
          rw [parser_bind_eq]
          simp only [parser_pure, List.drop_zero]
          rw [parser_bind_eq]
          rw [hloop]
          simp only [parser_pure, Option.map_map]
          refine ⟨_, _, rfl, by simp, by simp only [Function.comp_apply]; omega⟩
        · by_cases hb : buf.isEmpty
          · simp only [hb, if_true, List.nil_append]
            simp [mapOptionM, text_token_to_bytes, hmap]
          · simp only [hb, if_false]
            simp [mapOptionM, text_token_to_bytes, hmap]
        · by_cases hb : buf.isEmpty
          · have hbe : buf = [] := by simpa using hb
            simp [hbe, hflat]
          · simp [hb, hflat]
      case _ =>
        subst h2
        refine ⟨(if buf.isEmpty then []
            else [⟨"text", TTData.bytes buf⟩]) ++
            ⟨"keepText", TTData.null⟩ :: toks,
          (if buf.isEmpty then [] else [buf]) ++ [0xFF, 2] :: parts,
          ?_, ?_, ?_⟩
        · unfold get_text_tokens_loop
          rw [parser_bind_eq]
          simp only [get_byte, List.drop_succ_cons, List.drop_zero]
          norm_num
          rw [parser_bind_eq]
          simp only [get_byte, List.drop_succ_cons, List.drop_zero]
          rw [parser_bind_eq]
          simp only [parser_pure, List.drop_zero]
          rw [parser_bind_eq]
          rw [hloop]
          simp only [parser_pure, Option.map_map]
          refine ⟨_, _, rfl, by simp, by simp only [Function.comp_apply]; omega⟩
        · by_cases hb : buf.isEmpty
          · simp only [hb, if_true, List.nil_append]
            simp [mapOptionM, text_token_to_bytes, hmap]
          · simp only [hb, if_false]
            simp [mapOptionM, text_token_to_bytes, hmap]
        · by_cases hb : buf.isEmpty
          · have hbe : buf = [] := by simpa using hb
            simp [hbe, hflat]
          · simp [hb, hflat]
      case _ =>
        subst h3
        refine ⟨(if buf.isEmpty then []
            else [⟨"text", TTData.bytes buf⟩]) ++
            ⟨"wait", TTData.null⟩ :: toks,
          (if buf.isEmpty then [] else [buf]) ++ [0xFF, 3] :: parts,
          ?_, ?_, ?_⟩
        · unfold get_text_tokens_loop
          rw [parser_bind_eq]
          simp only [get_byte, List.drop_succ_cons, List.drop_zero]
          norm_num
          rw [parser_bind_eq]
          simp only [get_byte, List.drop_succ_cons, List.drop_zero]
          rw [parser_bind_eq]
          simp only [parser_pure, List.drop_zero]
          rw [parser_bind_eq]
          rw [hloop]
          simp only [parser_pure, Option.map_map]
          refine ⟨_, _, rfl, by simp, by simp only [Function.comp_apply]; omega⟩
        · by_cases hb : buf.isEmpty
          · simp only [hb, if_true, List.nil_append]
            simp [mapOptionM, text_token_to_bytes, hmap]
          · simp only [hb, if_false]
            simp [mapOptionM, text_token_to_bytes, hmap]
        · by_cases hb : buf.isEmpty
          · have hbe : buf = [] := by simpa using hb
            simp [hbe, hflat]
          · simp [hb, hflat]
  | escv t v rest ht hv hrest ih =>
    intro fuel hf buf
    cases fuel with
    | zero => simp at hf
    | succ f =>
      obtain ⟨toks, parts, hloop, hmap, hflat⟩ :=
        ih f (by simp at hf ⊢; omega) []
      simp only [List.nil_append] at hflat
      simp only [List.mem_cons, List.mem_singleton, List.not_mem_nil,
        or_false] at ht
      rcases ht with h4 | h5 | h6 | h7
      case _ =>
        subst h4
        refine ⟨(if buf.isEmpty then []
            else [⟨"text", TTData.bytes buf⟩]) ++
            ⟨"getInt", TTData.var v⟩ :: toks,
          (if buf.isEmpty then [] else [buf]) ++
            ([0xFF, 4] ++ var_raw v) :: parts,
          ?_, ?_, ?_⟩
        · have c0 : ((0xFF : Nat) == 0) = false := rfl
          have cf : (((0xFF : Nat) == 0xFF) || ((0xFF : Nat) == 0xFE)) =
            true := rfl
          unfold get_text_tokens_loop
          simp only [parser_bind_eq, get_byte, parser_pure, c0, cf,
            Bool.false_eq_true, Bool.true_eq_false, if_false, if_true,
            List.drop_succ_cons, List.drop_zero, List.drop_left,
            get_var_canon v hv, hloop, Option.map_map, Option.map_some']
          simp [hloop]
          omega
        · by_cases hb : buf.isEmpty
          · simp only [hb, if_true, List.nil_append]
            simp [mapOptionM, text_token_to_bytes, hmap]
          · simp only [hb, if_false]
            simp [mapOptionM, text_token_to_bytes, hmap]
        · by_cases hb : buf.isEmpty
          · have hbe : buf = [] := by simpa using hb
            simp [hbe, hflat]
          · simp [hb, hflat]
      case _ =>
        subst h5
        refine ⟨(if buf.isEmpty then []
            else [⟨"text", TTData.bytes buf⟩]) ++
            ⟨"getVerb", TTData.var v⟩ :: toks,
          (if buf.isEmpty then [] else [buf]) ++
            ([0xFF, 5] ++ var_raw v) :: parts,
          ?_, ?_, ?_⟩
        · have c0 : ((0xFF : Nat) == 0) = false := rfl
          have cf : (((0xFF : Nat) == 0xFF) || ((0xFF : Nat) == 0xFE)) =
            true := rfl
          unfold get_text_tokens_loop
          simp only [parser_bind_eq, get_byte, parser_pure, c0, cf,
            Bool.false_eq_true, Bool.true_eq_false, if_false, if_true,
            List.drop_succ_cons, List.drop_zero, List.drop_left,
            get_var_canon v hv, hloop, Option.map_map, Option.map_some']
          simp [hloop]
          omega
        · by_cases hb : buf.isEmpty
          · simp only [hb, if_true, List.nil_append]
            simp [mapOptionM, text_token_to_bytes, hmap]
          · simp only [hb, if_false]
            simp [mapOptionM, text_token_to_bytes, hmap]
        · by_cases hb : buf.isEmpty
          · have hbe : buf = [] := by simpa using hb
            simp [hbe, hflat]
          · simp [hb, hflat]
      case _ =>
        subst h6
        refine ⟨(if buf.isEmpty then []
            else [⟨"text", TTData.bytes buf⟩]) ++
            ⟨"getName", TTData.var v⟩ :: toks,
          (if buf.isEmpty then [] else [buf]) ++
            ([0xFF, 6] ++ var_raw v) :: parts,
          ?_, ?_, ?_⟩
        · have c0 : ((0xFF : Nat) == 0) = false := rfl
          have cf : (((0xFF : Nat) == 0xFF) || ((0xFF : Nat) == 0xFE)) =
            true := rfl
          unfold get_text_tokens_loop
          simp only [parser_bind_eq, get_byte, parser_pure, c0, cf,
            Bool.false_eq_true, Bool.true_eq_false, if_false, if_true,
            List.drop_succ_cons, List.drop_zero, List.drop_left,
            get_var_canon v hv, hloop, Option.map_map, Option.map_some']
          simp [hloop]
          omega
        · by_cases hb : buf.isEmpty
          · simp only [hb, if_true, List.nil_append]
            simp [mapOptionM, text_token_to_bytes, hmap]
          · simp only [hb, if_false]
            simp [mapOptionM, text_token_to_bytes, hmap]
        · by_cases hb : buf.isEmpty
          · have hbe : buf = [] := by simpa using hb
            simp [hbe, hflat]
          · simp [hb, hflat]
      case _ =>
        subst h7
        refine ⟨(if buf.isEmpty then []
            else [⟨"text", TTData.bytes buf⟩]) ++
            ⟨"getString", TTData.var v⟩ :: toks,
          (if buf.isEmpty then [] else [buf]) ++
            ([0xFF, 7] ++ var_raw v) :: parts,
          ?_, ?_, ?_⟩
        · have c0 : ((0xFF : Nat) == 0) = false := rfl
          have cf : (((0xFF : Nat) == 0xFF) || ((0xFF : Nat) == 0xFE)) =
            true := rfl
          unfold get_text_tokens_loop
          simp only [parser_bind_eq, get_byte, parser_pure, c0, cf,
            Bool.false_eq_true, Bool.true_eq_false, if_false, if_true,
            List.drop_succ_cons, List.drop_zero, List.drop_left,
            get_var_canon v hv, hloop, Option.map_map, Option.map_some']
          simp [hloop]
          omega
        · by_cases hb : buf.isEmpty
          · simp only [hb, if_true, List.nil_append]
            simp [mapOptionM, text_token_to_bytes, hmap]
          · simp only [hb, if_false]
            simp [mapOptionM, text_token_to_bytes, hmap]
        · by_cases hb : buf.isEmpty
          · have hbe : buf = [] := by simpa using hb
            simp [hbe, hflat]
          · simp [hb, hflat]

theorem emit_identity (l : List (Nat × V4Instr)) (j p : Nat) (i : V4Instr)
    (hj : l[j]? = some (p, i))
    (henc : v4_instr_to_bytes i = some i.raw)
    (hb : branch_ok (script_old_bases l) p i = true) :
    emit_instr (script_old_bases l) (script_old_bases l) j p i =
      some i.raw := by
  unfold emit_instr
  cases hlk : i.args.lookup "offset" with
  | none => exact henc
  | some a =>
    simp only
    split
    · exact henc
    · rename_i hnop
      simp only [branch_ok, hlk] at hb
      split at hb
      case isTrue hc => exact absurd hc hnop
      cases a with
      | int o =>
        simp only [Bool.and_eq_true, decide_eq_true_eq] at hb
        obtain ⟨hnd, hcont⟩ := hb
        have hmemT : ((p : Int) + (i.raw.length : Int) + o) ∈
            script_old_bases l := by
          simpa using hcont
        obtain ⟨ti, hti⟩ := py_list_index_of_mem _ _ hmemT
        have htiget : (script_old_bases l)[ti]? =
            some ((p : Int) + (i.raw.length : Int) + o) :=
          py_list_index_get _ _ _ hti
        have hjget : (script_old_bases l)[j]? = some ((p : Int)) := by
          simp [script_old_bases, hj]
        simp only [arg_int, henc, hti, Option.bind_eq_bind,
          Option.some_bind, List.get?_eq_getElem?, htiget, hjget]
        have harith : (p : Int) + (i.raw.length : Int) + o -
            (i.raw.length : Int) - (p : Int) = o := by ring
        rw [harith]
        rw [set_arg_self "offset" (V4Arg.int o) i.args hnd hlk]
        exact henc
      | var v => simp at hb
      | bool b => simp at hb
      | str s => simp at hb
      | null => simp at hb
      | texts ts => simp at hb
      | list xs => simp at hb
      | ops os => simp at hb
      | dict kvs => simp at hb

/-! The claims. -/


/-- C1 (amended): the round-trip `encode(decode(bytes)) == bytes` holds
for every byte string whose decode succeeds, is non-empty, has every
instruction re-encode to exactly its stored raw bytes, and has every
non-no-op branch offset given as an immediate with unduplicated argument
keys whose original target lands on an instruction boundary
(`branch_ok`).  The unconditional claim is refuted by
`C1_roundtrip_cex`. -/
theorem C1_roundtrip (s : List Nat) (l : List (Nat × V4Instr))
    (hdec : scumm_v4_tokenizer s 0 true = some l)
    (hne : l ≠ [])
    (henc : ∀ pi ∈ l, v4_instr_to_bytes pi.2 = some pi.2.raw)
    (hoff : ∀ pi ∈ l, branch_ok (script_old_bases l) pi.1 pi.2 = true) :
    instr_list_to_bytes l = some s := by
  have hdec2 : tok_loop (s.length + 1) (s.length + 1) 0 true s = some l := by
    simpa [scumm_v4_tokenizer] using hdec
  obtain ⟨hflat, hoffs⟩ :=
    tok_loop_props (s.length + 1) (s.length + 1) 0 s l hdec2
  have hlens : mapOptionM (fun x => (v4_instr_to_bytes x.2).map List.length) l
      = some (l.map (fun x => x.2.raw.length)) :=
    mapOptionM_map _ _ l (fun x hx => by rw [henc x hx]; rfl)
  obtain ⟨⟨p0, i0⟩, rest, hl⟩ : ∃ f r, l = f :: r := by
    cases l with
    | nil => exact absurd rfl hne
    | cons f r => exact ⟨f, r, rfl⟩
  have hp0 : p0 = 0 := by
    rw [hl] at hoffs
    exact hoffs.1
  have hhead : l.head? = some (p0, i0) := by rw [hl]; rfl
  have hrb := running_bases_eq l 0 hoffs
  have hnb : script_new_bases l = some (script_old_bases l) := by
    unfold script_new_bases
    rw [hhead]
    simp only [Option.bind_eq_bind, Option.some_bind]
    rw [hlens]
    simp only [Option.some_bind]
    have hc : ((p0 : Int)) = (((0 : Nat) : Int)) := by rw [hp0]
    rw [hc, hrb]
    rfl
  have hchunks : mapOptionM
      (fun oii => emit_instr (script_old_bases l) (script_old_bases l)
        oii.1 oii.2.1 oii.2.2) l.enum =
      some (l.enum.map (fun oii => oii.2.2.raw)) := by
    apply mapOptionM_map
    intro x hx
    obtain ⟨j, hj⟩ := List.mem_iff_getElem?.mp hx
    rw [get?_enum] at hj
    cases hlj : l[j]? with
    | none => rw [hlj] at hj; simp at hj
    | some pi =>
      rw [hlj] at hj
      obtain ⟨p, i⟩ := pi
      have hj2 : ((j, (p, i)) : Nat × Nat × V4Instr) = x := by
        simpa using hj
      subst hj2
      have hmem : (p, i) ∈ l := List.mem_iff_getElem?.mpr ⟨j, hlj⟩
      exact emit_identity l j p i hlj (henc _ hmem) (hoff _ hmem)
  have hmapeq : l.enum.map (fun oii => oii.2.2.raw) =
      l.map (fun x => x.2.raw) := by
    conv_rhs => rw [← List.enum_map_snd l, List.map_map]
    rfl
  rw [hmapeq] at hchunks
  simp only [instr_list_to_bytes, hnb, hchunks, Option.bind_eq_bind,
    Option.some_bind, Option.pure_def]
  exact congrArg some hflat.symm

/-- Witness for C1: the two-instruction script `48 04 00 07 00 00 00 00`
(an `isEqual` with a zero branch offset followed by `stopObjectCode`)
satisfies every hypothesis and round-trips byte-exactly. -/
theorem C1_roundtrip_witness :
    scumm_v4_tokenizer [72, 4, 0, 7, 0, 0, 0, 0] 0 true = some C1_l0 ∧
    instr_list_to_bytes C1_l0 = some [72, 4, 0, 7, 0, 0, 0, 0] :=
  ⟨rfl, C1_roundtrip [72, 4, 0, 7, 0, 0, 0, 0] C1_l0 rfl
    (List.cons_ne_nil _ _) (by decide) (by decide)⟩

/-- Counterexample to C1 as stated: the `print` instruction
`14 01 0F FE 01 00` decodes successfully, but re-encoding from the
parsed arguments rewrites the 0xFE text-escape byte to 0xFF, so
`encode(decode(bytes))` differs from the input. -/
theorem C1_roundtrip_cex :
    (scumm_v4_tokenizer [0x14, 0x01, 0x0F, 0xFE, 0x01, 0x00] 0 true).bind
        instr_list_to_bytes = some [0x14, 0x01, 0x0F, 0xFF, 0x01, 0x00] ∧
    ([0x14, 0x01, 0x0F, 0xFF, 0x01, 0x00] : List Nat) ≠
      [0x14, 0x01, 0x0F, 0xFE, 0x01, 0x00] :=
  ⟨rfl, by decide⟩

/-- C3 (amended): when an instruction's re-encoded form has the same
length as its stored raw bytes, `emit_instr` rewrites its branch offset
exactly as the claim states: to `new_target - new_instr_offset -
len(new_instr_bytes)`, where the original target is
`old_instr_offset + len(raw) + old_offset`.  Without that length
assumption the code swaps the two lengths (see
`C3_branch_rewrite_cex`). -/
theorem C3_branch_rewrite (old_bases new_bases : List Int) (i off : Nat)
    (instr : V4Instr) (o : Int) (enc : List Nat) (ti : Nat) (nb_t nb_i : Int)
    (hlk : instr.args.lookup "offset" = some (V4Arg.int o))
    (hnop : jump_nop instr.name (V4Arg.int o) = false)
    (henc : v4_instr_to_bytes instr = some enc)
    (hlen : enc.length = instr.raw.length)
    (hti : py_list_index old_bases
      ((off : Int) + (instr.raw.length : Int) + o) = some ti)
    (hnbt : new_bases.get? ti = some nb_t)
    (hnbi : new_bases.get? i = some nb_i) :
    emit_instr old_bases new_bases i off instr =
      v4_instr_to_bytes
        { instr with
          args := set_arg instr.args "offset"
              (V4Arg.int (nb_t - nb_i - (enc.length : Int))) } := by
  have hcast : ((enc.length : Int)) = ((instr.raw.length : Int)) := by
    exact_mod_cast hlen
  unfold emit_instr
  rw [hlk]
  simp only
  split
  case isTrue h => rw [hnop] at h; simp at h
  case isFalse h =>
    simp only [arg_int, henc, Option.bind_eq_bind, Option.some_bind]
    rw [hcast, hti]
    simp only [Option.some_bind]
    rw [hnbt, hnbi]
    simp only [Option.some_bind]
    rw [sub_right_comm, ← hcast]

/-- Witness for C3: the example `isEqual` instruction (whose encoding
equals its raw bytes) has its zero offset rewritten to
`7 - 0 - 7 = 0` as the formula states. -/
theorem C3_branch_rewrite_witness :
    emit_instr [0, 7] [0, 7] 0 0 C1_i0 =
      v4_instr_to_bytes
        { C1_i0 with
          args := set_arg C1_i0.args "offset" (V4Arg.int (7 - 0 - 7)) } :=
  C3_branch_rewrite [0, 7] [0, 7] 0 0 C1_i0 0 [72, 4, 0, 7, 0, 0, 0] 1 7 0
    rfl rfl rfl rfl rfl rfl rfl

/-- Counterexample to C3 as stated: in `c3_example_list` the first
instruction has 9 raw bytes but a 7-byte re-encoding.  The claim's
formula locates the original target `0 + 9 + (-2) = 7` at boundary
index 2 (new position 8) and demands offset `8 - 0 - 7 = 1`, but the
emitted bytes carry offset `254 255`, i.e. `-2`: the code computes the
target with `len(new)` and subtracts `len(raw)`. -/
theorem C3_branch_rewrite_cex :
    instr_list_to_bytes c3_example_list =
      some [72, 0, 0, 5, 0, 254, 255, 0, 0] ∧
    script_new_bases c3_example_list = some [0, 7, 8] ∧
    py_list_index (script_old_bases c3_example_list)
        ((0 : Int) + 9 + (-2)) = some 2 ∧
    from_int16_le 254 255 = -2 ∧
    ((8 : Int) - 0 - 7 = 1) ∧ ((-2 : Int) ≠ 1) :=
  ⟨rfl, rfl, rfl, rfl, rfl, by decide⟩

/-- C4 (amended): the text-token codec round-trips on the canonical
sub-language `TextCanon`: escapes introduced by 0xFF (never 0xFE) with
sub-token byte 1..7 and canonical variable references, literals other
than 0x00/0xFF/0xFE, and the 0x00 terminator.  The full claim, which
also asserts the round-trip for 0xFE escapes and sub-tokens 9/12/14, is
refuted by `C4_text_roundtrip_cex`. -/
theorem C4_text_roundtrip (s : List Nat) (h : TextCanon s) :
    ∃ toks, get_text_tokens_run s = some (toks, s.length) ∧
      text_tokens_to_bytes toks = some s := by
  obtain ⟨toks, parts, hloop, hmap, hflat⟩ :=
    gtt_canon s h (s.length + 1) (by omega) []
  simp only [List.nil_append] at hflat
  refine ⟨toks, ?_, ?_⟩
  · exact hloop
  · unfold text_tokens_to_bytes
    rw [hmap]
    simp only [Option.bind_eq_bind, Option.some_bind]
    rw [hflat]
    rfl

/-- Witness for C4: the byte string `41 00` is canonical and
round-trips. -/
theorem C4_text_roundtrip_witness :
    TextCanon [65, 0] ∧
    ∃ toks, get_text_tokens_run [65, 0] = some (toks, 2) ∧
      text_tokens_to_bytes toks = some [65, 0] :=
  ⟨TextCanon.lit 65 [0] (by decide) (by decide) (by decide) TextCanon.term,
   C4_text_roundtrip [65, 0]
     (TextCanon.lit 65 [0] (by decide) (by decide) (by decide)
       TextCanon.term)⟩

/-- Counterexample to C4 as stated: `FE 01 00` is accepted by the
decoder (0xFE introduces an escape exactly like 0xFF), but the encoder
always emits 0xFF, so the round-trip returns `FF 01 00 ≠ FE 01 00`. -/
theorem C4_text_roundtrip_cex :
    (get_text_tokens_run [0xFE, 0x01, 0x00]).bind
        (fun r => text_tokens_to_bytes r.1) =
      some [0xFF, 0x01, 0x00] ∧
    ([0xFF, 0x01, 0x00] : List Nat) ≠ [0xFE, 0x01, 0x00] :=
  ⟨rfl, by decide⟩

/-- C5 (amended): the forest shuffle never selects a FOREST_SKIP room
(201, 206, 209, 218) as a hub or as a passage: `forest_hubs` and
`forest_passages` filter them out.  The stronger claim that the links of
those rooms are never rewritten is refuted by `C5_forest_skip_cex`. -/
theorem C5_forest_skip :
    (∀ (rn : List Int) (en : List (Int × List Int)) (r : Int),
      r ∈ forest_hubs rn en → ¬ r ∈ FOREST_SKIP) ∧
    (∀ (rn : List Int) (en : List (Int × List Int)) (r : Int),
      r ∈ forest_passages rn en → ¬ r ∈ FOREST_SKIP) := by
  constructor
  · intro rn en r hr hmem
    obtain ⟨-, hcond⟩ := List.mem_filter.mp hr
    simp only [Bool.and_eq_true, Bool.not_eq_true'] at hcond
    obtain ⟨⟨-, hc⟩, -⟩ := hcond
    simp [hmem] at hc
  · intro rn en r hr hmem
    obtain ⟨-, hcond⟩ := List.mem_filter.mp hr
    simp only [Bool.and_eq_true, Bool.not_eq_true'] at hcond
    obtain ⟨⟨-, hc⟩, -⟩ := hcond
    simp [hmem] at hc

/-- Witness for C5: room 210 with three exits qualifies as a hub and is
not in FOREST_SKIP. -/
theorem C5_forest_skip_witness :
    ((210 : Int) ∈ forest_hubs [210] [(210, [1, 2, 3])]) ∧
    ¬ (210 : Int) ∈ FOREST_SKIP :=
  ⟨by decide, C5_forest_skip.1 [210] [(210, [1, 2, 3])] 210 (by decide)⟩

/-- Counterexample to C5 as stated: in the example forest content, room
206's outer-world link (through dispatcher object 666) loads room 58;
after `shuffle_forest` with the given choice stream, the hub swap's
far-end exchange rewrites that link to load room 210, although
206 ∈ FOREST_SKIP. -/
theorem C5_forest_skip_cex :
    forest_outer_link_room forest_example_content = some 58 ∧
    (shuffle_forest forest_example_content [0, 1, 0, 0, 1, 0]).map
        (fun st => forest_outer_link_room st.1) = some (some 210) ∧
    ((206 : Int) ∈ FOREST_SKIP) ∧ ((210 : Int) ≠ 58) :=
  ⟨rfl, rfl, by decide, by decide⟩

/-- C6 (amended): the turbo rewrite sets the `value` argument of every
instruction matching `turbo_cond` (a `move` to variable 19 with an
immediate value) to the timer interval, preserving the instruction's
name, target, opcode, raw bytes and all other arguments, and leaves
non-matching instructions unchanged; `turbo_mode` applies it to the
global and local scripts only, preserving each room's objects, entry
and exit fields.  The claim's `across all scripts` is refuted by
`C6_turbo_cex`. -/
theorem C6_turbo :
    (∀ (t : Int) (i : V4Instr), turbo_cond i = true →
      (turbo_rewrite t i).name = i.name ∧
      (turbo_rewrite t i).target = i.target ∧
      (turbo_rewrite t i).opcode = i.opcode ∧
      (turbo_rewrite t i).raw = i.raw ∧
      (turbo_rewrite t i).args.lookup "value" = some (V4Arg.int t) ∧
      (∀ k2 : String, k2 ≠ "value" →
        (turbo_rewrite t i).args.lookup k2 = i.args.lookup k2)) ∧
    (∀ (t : Int) (i : V4Instr), turbo_cond i = false →
      turbo_rewrite t i = i) ∧
    (∀ (c : IGameData) (t : Int),
      (turbo_mode c t).map
          (fun r => (r.1, r.2.objects, r.2.entry, r.2.exit)) =
        c.map (fun r => (r.1, r.2.objects, r.2.entry, r.2.exit))) := by
  refine ⟨?_, ?_, ?_⟩
  · intro t i hc
    have hval : ∃ n : Int, i.args.lookup "value" = some (V4Arg.int n) := by
      simp only [turbo_cond, Bool.and_eq_true] at hc
      obtain ⟨-, hv⟩ := hc
      cases hlv : i.args.lookup "value" with
      | none => rw [hlv] at hv; simp at hv
      | some a =>
        rw [hlv] at hv
        cases a with
        | int n => exact ⟨n, rfl⟩
        | var v => simp at hv
        | bool b => simp at hv
        | str s => simp at hv
        | null => simp at hv
        | texts ts => simp at hv
        | list xs => simp at hv
        | ops os => simp at hv
        | dict kvs => simp at hv
    obtain ⟨n, hlv⟩ := hval
    unfold turbo_rewrite
    rw [if_pos hc]
    refine ⟨rfl, rfl, rfl, rfl, ?_, ?_⟩
    · exact lookup_set_arg "value" (V4Arg.int t) i.args (V4Arg.int n) hlv
    · intro k2 hk2
      exact lookup_set_arg_ne "value" k2 (V4Arg.int t) hk2 i.args
  · intro t i hc
    unfold turbo_rewrite
    rw [if_neg (by simp [hc])]
  · intro c t
    unfold turbo_mode
    rw [List.map_map]
    rfl

/-- Witness for C6: `move VAR[19] := 5` is rewritten to value 2; a
`stopObjectCode` is left unchanged. -/
theorem C6_turbo_witness :
    ((turbo_rewrite 2 (move_timer 5)).args.lookup "value" =
        some (V4Arg.int 2)) ∧
    turbo_rewrite 2 stop0 = stop0 :=
  ⟨(C6_turbo.1 2 (move_timer 5) (by decide)).2.2.2.2.1,
   C6_turbo.2.1 2 stop0 (by decide)⟩

/-- Counterexample to C6 as stated: in the example content the global
script's timer `move` is rewritten to 2, but the entry script's timer
`move`, which satisfies `turbo_cond`, keeps value 5: entry (and exit
and object) scripts are never visited. -/
theorem C6_turbo_cex :
    turbo_mode turbo_example_content 2 =
      [(1, { globals := [(2, [(0, move_timer 2)])],
             entry := some [(0, move_timer 5)] })] ∧
    turbo_cond (move_timer 5) = true ∧
    ((move_timer 5).args.lookup "value" ≠
      (move_timer 2).args.lookup "value") :=
  ⟨rfl, rfl, by simp [move_timer, List.lookup]⟩

/-- C7 (amended): during the per-room chunk walk, an `SC` chunk whose
(room, offset) key is missing from the script map is skipped and the
walk continues, but a `CO` or `SO` chunk with a missing key aborts the
walk with a KeyError (`none`).  The claim that all three warn-and-skip
is refuted by `C7_index_miss_cex`. -/
theorem C7_index_miss :
    (∀ (room : Nat) (smap nmap cmap : List ((Nat × Nat) × Nat)) (k off : Nat)
      (rest : List (Nat × String × Nat)) (acc : RoomScan),
      smap.lookup (room, off) = Option.none →
      scan_room_chunks_loop room smap nmap cmap ((k, "SC", off) :: rest) acc =
        scan_room_chunks_loop room smap nmap cmap rest acc) ∧
    (∀ (room : Nat) (smap nmap cmap : List ((Nat × Nat) × Nat)) (k off : Nat)
      (rest : List (Nat × String × Nat)) (acc : RoomScan),
      cmap.lookup (room, off) = Option.none →
      scan_room_chunks_loop room smap nmap cmap ((k, "CO", off) :: rest) acc =
        Option.none) ∧
    (∀ (room : Nat) (smap nmap cmap : List ((Nat × Nat) × Nat)) (k off : Nat)
      (rest : List (Nat × String × Nat)) (acc : RoomScan),
      nmap.lookup (room, off) = Option.none →
      scan_room_chunks_loop room smap nmap cmap ((k, "SO", off) :: rest) acc =
        Option.none) := by
  refine ⟨?_, ?_, ?_⟩ <;>
    (intro room smap nmap cmap k off rest acc h;
     simp [scan_room_chunks_loop, h])

/-- Witness for C7: with empty index maps, an `SC` chunk is skipped
while `CO` and `SO` chunks abort the walk. -/
theorem C7_index_miss_witness :
    (scan_room_chunks_loop 1 [] [] [] [(0, "SC", 5)] {} =
      scan_room_chunks_loop 1 [] [] [] [] {}) ∧
    (scan_room_chunks_loop 1 [] [] [] [(0, "CO", 5)] {} = Option.none) ∧
    (scan_room_chunks_loop 1 [] [] [] [(0, "SO", 5)] {} = Option.none) :=
  ⟨C7_index_miss.1 1 [] [] [] 0 5 [] {} rfl,
   C7_index_miss.2.1 1 [] [] [] 0 5 [] {} rfl,
   C7_index_miss.2.2 1 [] [] [] 0 5 [] {} rfl⟩

/-- Counterexample to C7 as stated: a room with one index row at offset
12 and a single chunk at offset 30: an `SO` chunk aborts the walk
(KeyError), while the same walk with an `SC` chunk completes. -/
theorem C7_index_miss_cex :
    scan_room_chunks 1 (build_global_map [⟨1, 10⟩]) [] [] [("SO", 30)] =
      Option.none ∧
    scan_room_chunks 1 (build_global_map [⟨1, 10⟩]) [] [] [("SC", 30)] =
      some { globals := [], costumes := [], sounds := [] } :=
  ⟨rfl, rfl⟩

/-- C8 (amended): `save_all` writes each output directly to its
destination name in a fixed order, so the completed writes always form
a prefix of the output order, and a fatal export error stops the save
with a strict prefix already in place at the destination.  The claimed
write-to-temp-and-rename behaviour does not exist in the source (see
`C8_save_writes_cex`). -/
theorem C8_save_writes (exports : String → Option (List Nat)) :
    (save_all_trace exports).1.map Prod.fst =
      save_order.take ((save_all_trace exports).1.length) ∧
    ((save_all_trace exports).2 = false →
      (save_all_trace exports).1.length < save_order.length) := by
  cases h0 : exports "000.LFL" <;> cases h1 : exports "DISK01.LEC" <;>
    cases h2 : exports "DISK02.LEC" <;> cases h3 : exports "DISK03.LEC" <;>
    cases h4 : exports "DISK04.LEC" <;>
    simp [save_all_trace, save_order, h0, h1, h2, h3, h4]

/-- Witness for C8: with an export map that fails on the first disk,
the save stops after writing `000.LFL`, a strict prefix of the output
order. -/
theorem C8_save_writes_witness :
    (save_all_trace bad_exports).1.map Prod.fst =
      save_order.take ((save_all_trace bad_exports).1.length) ∧
    (save_all_trace bad_exports).1.length < save_order.length :=
  ⟨(C8_save_writes bad_exports).1, (C8_save_writes bad_exports).2 rfl⟩

/-- Counterexample to C8 as stated: an export failure on `DISK01.LEC`
leaves the already-written `000.LFL` at the destination: the
destination directory is not left untouched. -/
theorem C8_save_writes_cex :
    save_all_trace bad_exports = ([("000.LFL", [1, 2, 3])], false) := rfl

/-- C9: with `dump_all = False` (object verb code) the tokenizer stops
right after the first `stopObjectCode`, so any `stopObjectCode` in the
returned list is its last element; with `dump_all = True` (global,
local, entry and exit scripts) the decoded instructions' raw bytes
concatenate to the whole remaining buffer, i.e. decoding runs to the
end of the buffer. -/
theorem C9_stop_split :
    (∀ (data : List Nat) (off : Nat) (l : List (Nat × V4Instr)),
      scumm_v4_tokenizer data off false = some l →
      ∀ (j p : Nat) (i : V4Instr), l[j]? = some (p, i) →
        i.name = "stopObjectCode" → j + 1 = l.length) ∧
    (∀ (data : List Nat) (off : Nat) (l : List (Nat × V4Instr)),
      scumm_v4_tokenizer data off true = some l →
      (l.map (fun x => x.2.raw)).flatten = data.drop off) := by
  constructor
  · intro data off l h
    exact tok_loop_stop (data.length + 1) (data.length + 1) off
      (data.drop off) l h
  · intro data off l h
    exact (tok_loop_props (data.length + 1) (data.length + 1) off
      (data.drop off) l h).1.symm

/-- Witness for C9: the two-byte script `00 00` decodes to a single
instruction with `dump_all = False` and to two instructions covering
the whole buffer with `dump_all = True`. -/
theorem C9_stop_split_witness :
    0 + 1 = ([(0, stop0)] : List (Nat × V4Instr)).length ∧
    (([(0, stop0), (1, stop0)] : List (Nat × V4Instr)).map
        (fun x => x.2.raw)).flatten = ([0, 0] : List Nat).drop 0 :=
  ⟨C9_stop_split.1 [0, 0] 0 [(0, stop0)] rfl 0 0 stop0 rfl rfl,
   C9_stop_split.2 [0, 0] 0 [(0, stop0), (1, stop0)] rfl⟩

/-- C10: for every instruction whose name the encoder covers,
`v4_instr_to_bytes` ignores the stored `opcode` field and `raw` bytes
(the emitted opcode byte is recomputed from the name and the
argument shapes), so `debug_mode`'s `move` node built with the wrong
opcode byte 0x19 still encodes as a correct `move`
(`1A 27 00 01 00`). -/
theorem C10_encoder_independence :
    (∀ (i : V4Instr) (opc : Nat) (rb : List Nat),
      i.name ∈ encoder_covered →
      v4_instr_to_bytes { i with opcode := opc, raw := rb } =
        v4_instr_to_bytes i) ∧
    v4_instr_to_bytes debug_move_instr = some [0x1A, 39, 0, 1, 0] := by
  constructor
  · intro i opc rb h
    obtain ⟨o0, nm, ar, tg, r0⟩ := i
    simp only [encoder_covered, List.mem_cons, List.not_mem_nil,
      or_false] at h
    rcases h with h|h|h|h|h|h|h|h|h|h|h|h|h|h|h|h|h|h|h|h <;>
      (subst h; rfl)
  · rfl

/-- Witness for C10: changing `debug_move_instr`'s opcode and raw bytes
does not change its encoding. -/
theorem C10_encoder_independence_witness :
    v4_instr_to_bytes { debug_move_instr with opcode := 0, raw := [9, 9] } =
      v4_instr_to_bytes debug_move_instr :=
  C10_encoder_independence.1 debug_move_instr 0 [9, 9] (by decide)

end M1S
